import Mathlib

/-!
# Savannah gateway and gallery: a shallow embedding

The gateway (`server.js`), its inference client (`gemini.js`) and the browser-side
gallery controller (`savannah.js`) are embedded as pure functions over explicit
state and an explicit trace of effects.  External collaborators (the storage
provider, the inference provider, the HTTP gateway as seen from the browser) are
parameters of the model.
-/

namespace Savannah

/-! ## Bytes and base64 (`Buffer.concat`, `buffer.toString('base64')`) -/

/-- One octet of a Node `Buffer`. -/
abbrev Byte := Fin 256

/-- One chunk delivered by a readable stream. -/
abbrev Chunk := List Byte

/-- The base64 alphabet of RFC 4648, in index order. -/
def b64Alphabet : List Char :=
  "ABCDEFGHIJKLMNOPQRSTUVWXYZabcdefghijklmnopqrstuvwxyz0123456789+/".toList

/-- The character of a sextet. -/
def b64Char (n : Nat) : Char := b64Alphabet.getD n 'A'

/-- The sextet of a character, when it is in the alphabet. -/
def b64Index (c : Char) : Option Nat :=
  let i := b64Alphabet.indexOf c
  if i < 64 then some i else none

/-- Base64 of a byte sequence, with `=` padding: what `toString('base64')` yields. -/
def toBase64 : List Byte → List Char
  | [] => []
  | [a] => [b64Char (a.val / 4), b64Char (a.val % 4 * 16), '=', '=']
  | [a, b] =>
    [b64Char (a.val / 4), b64Char (a.val % 4 * 16 + b.val / 16), b64Char (b.val % 16 * 4), '=']
  | a :: b :: c :: rest =>
    b64Char (a.val / 4) :: b64Char (a.val % 4 * 16 + b.val / 16) ::
      b64Char (b.val % 16 * 4 + c.val / 64) :: b64Char (c.val % 64) :: toBase64 rest

/-- The byte with the given value modulo 256. -/
def byteOf (n : Nat) : Byte := ⟨n % 256, Nat.mod_lt _ (by decide)⟩

/-- Decoder of padded base64: the inverse against which the payload is checked. -/
def fromBase64 : List Char → Option (List Byte)
  | [] => some []
  | c0 :: c1 :: c2 :: c3 :: rest =>
    match b64Index c0, b64Index c1 with
    | some s0, some s1 =>
      if c2 = '=' then
        if c3 = '=' ∧ rest = [] then some [byteOf (s0 * 4 + s1 / 16)] else none
      else
        match b64Index c2 with
        | none => none
        | some s2 =>
          if c3 = '=' then
            if rest = [] then
              some [byteOf (s0 * 4 + s1 / 16), byteOf (s1 % 16 * 16 + s2 / 4)]
            else none
          else
            match b64Index c3, fromBase64 rest with
            | some s3, some bs =>
              some (byteOf (s0 * 4 + s1 / 16) :: byteOf (s1 % 16 * 16 + s2 / 4) ::
                byteOf (s2 % 4 * 64 + s3) :: bs)
            | _, _ => none
    | _, _ => none
  | _ => none

/-- `Buffer.concat(chunks)`: the chunks joined in order. -/
def bufferConcat (chunks : List Chunk) : List Byte := chunks.flatten

/-- `buffer.toString('base64')` as a string. -/
def toBase64String (buffer : List Byte) : String := String.mk (toBase64 buffer)

/-- `String.prototype.startsWith`. -/
def startsWith (s pre : String) : Bool := pre.toList.isPrefixOf s.toList

/-! ## Data of the storage provider and of the gateway -/

/-- A file resource of the storage provider.  The listing of `/thumbnails` asks for
`id, name, thumbnailLink` only: `mimeType` is the file's type at the provider and is
never read by that route. -/
structure DriveFile where
  id : String
  name : String
  mimeType : String
  /-- The field `thumbnailLink`, `none` when the provider gives none. -/
  thumbnailLink : Option String
  deriving DecidableEq, Repr

/-- The object `{ id, name, thumbnailUrl }` sent to the client. -/
structure ThumbnailEntry where
  id : String
  name : String
  thumbnailUrl : Option String
  deriving DecidableEq, Repr

/-- The object `{ id, name }` of the listing of the root folder. -/
structure FileRef where
  id : String
  name : String
  deriving DecidableEq, Repr

/-- JavaScript truthiness of a possibly missing string: defined and not empty. -/
def truthy : Option String → Bool
  | some s => s != ""
  | none => false

/-! ## Effects of the server -/

/-- JSON bodies the gateway sends. -/
inductive Body where
  | error (message : String)
  | transcription (text : String)
  | thumbnails (entries : List ThumbnailEntry)
  | thumbnail (entry : ThumbnailEntry)
  | files (entries : List FileRef)
  deriving DecidableEq, Repr

/-- Observable effects of a request handler, in program order. -/
inductive Effect where
  | driveList (q : String)
  | driveGetMedia (fileId : String)
  | driveGetMetadata (fileId : String)
  | subscribe (event : String)
  | readPrompt
  | generateContent (prompt data mimeType : String)
  | transcribeImage (base64Image mimeType : String)
  | log (message : String)
  | respond (status : Nat) (body : Body)
  | driveGetFields (fileId fields : String)
  | setHeader (name value : String)
  | pipe
  | uncaughtException (message : String)
  deriving DecidableEq, Repr

/-- The calls of the inference client in a trace, with their arguments. -/
def inferenceCalls : List Effect → List (String × String)
  | [] => []
  | .transcribeImage d m :: rest => (d, m) :: inferenceCalls rest
  | _ :: rest => inferenceCalls rest

/-- The HTTP responses of a trace. -/
def responses : List Effect → List (Nat × Body)
  | [] => []
  | .respond s b :: rest => (s, b) :: responses rest
  | _ :: rest => responses rest

/-- The calls of the inference provider in a trace. -/
def providerCalls : List Effect → List (String × String × String)
  | [] => []
  | .generateContent p d m :: rest => (p, d, m) :: providerCalls rest
  | _ :: rest => providerCalls rest

/-- The stream subscriptions of a trace. -/
def subscriptions : List Effect → List String
  | [] => []
  | .subscribe e :: rest => e :: subscriptions rest
  | _ :: rest => subscriptions rest

/-! ## `gemini.js` -/

/-- What `transcribeImage` depends on: the prompt file and the provider. -/
structure GeminiEnv where
  /-- Outcome of `fs.readFileSync('prompt.txt', 'utf-8')`. -/
  promptFile : Except String String
  /-- Outcome of `model.generateContent([prompt, imagePart])` followed by `response.text()`. -/
  generateContent : String → String → String → Except String String

/-- The function `transcribeImage(base64Image, mimeType)`: result and effects. -/
def transcribeImage (env : GeminiEnv) (base64Image mimeType : String) :
    Except String String × List Effect :=
  match env.promptFile with
  | .error e => (.error e, [.readPrompt])
  | .ok prompt =>
    (env.generateContent prompt base64Image mimeType,
      [.readPrompt, .generateContent prompt base64Image mimeType])

/-! ## `GET /transcribe/:fileId` -/

/-- Events of the content stream. -/
inductive StreamEvent where
  | data (chunk : Chunk)
  | end_
  | error (driveError : String)
  deriving DecidableEq, Repr

/-- State of one `/transcribe` request once the route body has run. -/
structure TranscribeState where
  /-- Whether the `data`, `end` and `error` listeners were attached. -/
  listening : Bool
  mimeType : String
  chunks : List Chunk
  trace : List Effect
  /-- Whether the content stream was opened (the `alt: "media"` request succeeded). -/
  stream : Bool
  /-- Whether the process has exited on an uncaught exception. -/
  exited : Bool
  deriving Repr

/-- Body of the route up to the subscriptions, when the stream raises nothing while the
route awaits the metadata.  `media` is the outcome of the `alt: "media"` request,
`metadata` of the `fields: 'mimeType'` request (`none` for a response without that
field). -/
def transcribeStart (fileId : String) (media : Except String Unit)
    (metadata : Except String (Option String)) : TranscribeState :=
  match media with
  | .error e =>
    { listening := false, mimeType := "", chunks := [], stream := false, exited := false,
      trace := [.driveGetMedia fileId, .log e,
        .respond 500 (.error "An unexpected error occurred.")] }
  | .ok () =>
    match metadata with
    | .error e =>
      { listening := false, mimeType := "", chunks := [], stream := true, exited := false,
        trace := [.driveGetMedia fileId, .driveGetMetadata fileId, .log e,
          .respond 500 (.error "An unexpected error occurred.")] }
    | .ok none =>
      { listening := false, mimeType := "", chunks := [], stream := true, exited := false,
        trace := [.driveGetMedia fileId, .driveGetMetadata fileId, .log "TypeError",
          .respond 500 (.error "An unexpected error occurred.")] }
    | .ok (some mimeType) =>
      if !startsWith mimeType "image/" then
        { listening := false, mimeType := mimeType, chunks := [], stream := true,
          exited := false,
          trace := [.driveGetMedia fileId, .driveGetMetadata fileId,
            .respond 400 (.error "File is not an image.")] }
      else
        { listening := true, mimeType := mimeType, chunks := [], stream := true,
          exited := false,
          trace := [.driveGetMedia fileId, .driveGetMetadata fileId,
            .subscribe "data", .subscribe "end", .subscribe "error"] }

/-- Body of the route with the window between the two requests.  The stream is opened
by the first `await` and its listeners are attached only after the second: `early` is
the error, if any, that the stream raises while the metadata request is pending.  It
finds no `error` listener and is raised outside the `try`: an uncaught exception, the
process exits and the request gets no response.  A paused stream emits no `data` and no
`end` in that window. -/
def transcribeStartWith (fileId : String) (media : Except String Unit)
    (early : Option String) (metadata : Except String (Option String)) : TranscribeState :=
  match media, early with
  | .ok (), some driveError =>
    { listening := false, mimeType := "", chunks := [], stream := true, exited := true,
      trace := [.driveGetMedia fileId, .driveGetMetadata fileId,
        .uncaughtException driveError] }
  | _, _ => transcribeStart fileId media metadata

/-- One stream event.  With the listeners attached it is dispatched to them.  Without
them a `data` or `end` is not emitted (the stream is paused), and an `error` of an open
stream is an uncaught exception: the process exits.  After the exit nothing happens. -/
def onEvent (env : GeminiEnv) (s : TranscribeState) (event : StreamEvent) : TranscribeState :=
  if s.exited then s
  else
    match event with
    | .data chunk =>
      if s.listening then { s with chunks := s.chunks ++ [chunk] } else s
    | .end_ =>
      if s.listening then
        let buffer := bufferConcat s.chunks
        let base64Image := toBase64String buffer
        match transcribeImage env base64Image s.mimeType with
        | (.ok transcription, eff) =>
          { s with trace := s.trace ++ [.transcribeImage base64Image s.mimeType] ++ eff ++
              [.respond 200 (.transcription transcription)] }
        | (.error geminiError, eff) =>
          { s with trace := s.trace ++ [.transcribeImage base64Image s.mimeType] ++ eff ++
              [.log geminiError,
                .respond 500 (.error "Failed to transcribe image with Gemini.")] }
      else s
    | .error driveError =>
      if s.listening then
        { s with trace := s.trace ++
            [.log driveError,
              .respond 500 (.error "Failed to retrieve file from Google Drive.")] }
      else if s.stream then
        { s with trace := s.trace ++ [.uncaughtException driveError], exited := true }
      else s

/-- The whole request: route body with its window, then the stream's events in
delivery order. -/
def transcribeRequest (env : GeminiEnv) (fileId : String) (media : Except String Unit)
    (early : Option String) (metadata : Except String (Option String))
    (events : List StreamEvent) : TranscribeState :=
  events.foldl (onEvent env) (transcribeStartWith fileId media early metadata)

/-- The request when the stream raises nothing while the metadata request is pending:
route body, then the stream's events in delivery order. -/
def transcribeRoute (env : GeminiEnv) (fileId : String) (media : Except String Unit)
    (metadata : Except String (Option String)) (events : List StreamEvent) : TranscribeState :=
  events.foldl (onEvent env) (transcribeStart fileId media metadata)

/-! ## `GET /thumbnails/:folderId` -/

/-- The query string the route sends to `drive.files.list`. -/
def thumbnailsQuery (folderId : String) : String :=
  "'" ++ folderId ++ "' in parents and mimeType contains 'image/'"

/-- The callback of `.map` in the route. -/
def toThumbnailEntry (file : DriveFile) : ThumbnailEntry :=
  { id := file.id, name := file.name, thumbnailUrl := file.thumbnailLink }

/-- The value `imageThumbnails` computed from `response.data.files`. -/
def imageThumbnails (files : List DriveFile) : List ThumbnailEntry :=
  (files.filter (fun file => truthy file.thumbnailLink)).map toThumbnailEntry

/-- The route.  `drive` is the provider: the answer of `drive.files.list` to a query. -/
def thumbnailsRoute (drive : String → Except String (List DriveFile)) (folderId : String) :
    List Effect :=
  match drive (thumbnailsQuery folderId) with
  | .ok files =>
    [.driveList (thumbnailsQuery folderId), .respond 200 (.thumbnails (imageThumbnails files))]
  | .error e =>
    [.driveList (thumbnailsQuery folderId), .log e,
      .respond 500 (.error "Failed to retrieve image thumbnails.")]

/-- The listing as the specification words it: walk the provider's list in order, keep a
file exactly when it has a non-empty thumbnail link, and emit its entry. -/
def keepThumbnailed : List DriveFile → List ThumbnailEntry
  | [] => []
  | f :: rest =>
    match f.thumbnailLink with
    | some link =>
      if link = "" then keepThumbnailed rest
      else { id := f.id, name := f.name, thumbnailUrl := some link } :: keepThumbnailed rest
    | none => keepThumbnailed rest

/-! ## `GET /`, `GET /file/:fileId`, `GET /thumbnail/:fileId` -/

/-- The query of the root listing: the children of the configured folder. -/
def rootQuery : String := "'1W2W6t7UIKm9330jbeCCapSKXuPG_ZwQn' in parents"

/-- The route `GET /`.  `drive` is the answer of `drive.files.list` to a query. -/
def rootRoute (drive : String → Except String (List DriveFile)) : List Effect :=
  match drive rootQuery with
  | .ok files =>
    [.driveList rootQuery,
      .respond 200 (.files (files.map (fun file => { id := file.id, name := file.name })))]
  | .error error =>
    [.driveList rootQuery, .log error, .respond 500 (.error "Failed to retrieve file list.")]

/-- The route `GET /file/:fileId`.  `media` is the outcome of the `alt: "media"`
request; on success the stream is piped into the response. -/
def fileRoute (media : Except String Unit) (fileId : String) : List Effect :=
  match media with
  | .ok () =>
    [.driveGetMedia fileId, .setHeader "Content-Type" "application/octet-stream", .pipe]
  | .error error =>
    [.driveGetMedia fileId, .log error, .respond 500 (.error "Failed to retrieve file.")]

/-- The route `GET /thumbnail/:fileId`.  `metadata` is the outcome of the request for
the fields `id, name, thumbnailLink`. -/
def thumbnailRoute (metadata : Except String DriveFile) (fileId : String) : List Effect :=
  match metadata with
  | .ok data =>
    if truthy data.thumbnailLink then
      [.driveGetFields fileId "id, name, thumbnailLink",
        .respond 200
          (.thumbnail { id := data.id, name := data.name, thumbnailUrl := data.thumbnailLink })]
    else
      [.driveGetFields fileId "id, name, thumbnailLink",
        .respond 404 (.error "Thumbnail not available for this file.")]
  | .error error =>
    [.driveGetFields fileId "id, name, thumbnailLink", .log error,
      .respond 500 (.error "Failed to retrieve thumbnail.")]

/-- The messages written to the server log in a trace. -/
def logged : List Effect → List String
  | [] => []
  | .log message :: rest => message :: logged rest
  | _ :: rest => logged rest

/-! ## JavaScript string replacement (`String.prototype.replace` with a string pattern) -/

/-- Position of the first occurrence of `pat` in `s`, counted from `i`. -/
def indexOfFrom (pat : List Char) : List Char → Nat → Option Nat
  | [], i => if pat = [] then some i else none
  | c :: s, i => if pat.isPrefixOf (c :: s) then some i else indexOfFrom pat s (i + 1)

/-- The method `indexOf` on strings. -/
def indexOf (s pat : List Char) : Option Nat := indexOfFrom pat s 0

/-- The abstract operation GetSubstitution of ECMAScript for a string pattern (no
captures): in the replacement text `$$` stands for `$`, `$&` for the match, `$` and a
grave accent for the text before the match, `$` and an apostrophe for the text after
it; every other character stands for itself. -/
def getSubstitution (matched str : List Char) (position : Nat) : List Char → List Char
  | [] => []
  | [c] => [c]
  | c :: d :: rest =>
    if c = '$' then
      if d = '$' then '$' :: getSubstitution matched str position rest
      else if d = '&' then matched ++ getSubstitution matched str position rest
      else if d = Char.ofNat 96 then
        str.take position ++ getSubstitution matched str position rest
      else if d = Char.ofNat 39 then
        str.drop (position + matched.length) ++ getSubstitution matched str position rest
      else c :: getSubstitution matched str position (d :: rest)
    else c :: getSubstitution matched str position (d :: rest)

/-- The call `str.replace(pat, replacement)` with both arguments strings: only the
first occurrence is replaced, by the expansion of `replacement`. -/
def replaceChars (str pat replacement : List Char) : List Char :=
  match indexOf str pat with
  | none => str
  | some position =>
    str.take position ++ getSubstitution pat str position replacement ++
      str.drop (position + pat.length)

/-- The same on strings. -/
def replace (str pat replacement : String) : String :=
  String.mk (replaceChars str.toList pat.toList replacement.toList)

/-- Literal substitution of the first occurrence of `pat` by `value`, character for
character: what the specification calls textual substitution. -/
def substituteLiteral (str pat value : List Char) : List Char :=
  match indexOf str pat with
  | none => str
  | some position => str.take position ++ value ++ str.drop (position + pat.length)

/-! ## The gallery controller (`savannah.js`) -/

/-- An entry of the JSON array answered by `/thumbnails/:folderId`, as the client reads
it; `name` may be null. -/
structure Thumb where
  id : String
  name : Option String
  thumbnailUrl : String
  deriving DecidableEq, Repr

/-- The content of a `Blob`. -/
abbrev Blob := List Byte

/-- What the client reads of a `fetch` response. -/
structure HttpResponse where
  ok : Bool
  statusText : String
  /-- Result of `response.json()`, `none` when it throws. -/
  json : Option (List Thumb)
  /-- Result of `response.blob()`. -/
  blob : Blob
  /-- Result of `response.text()`. -/
  text : String
  /-- The field `transcription` of `response.json()`: `none` when `json()` throws,
  `some none` when the object has no such field. -/
  jsonTranscription : Option (Option String) := none
  deriving Repr

/-- The browser and network around the controller. -/
structure Browser where
  /-- The response to the `n`-th fetch of the session, for its URL. -/
  fetch : Nat → String → HttpResponse
  /-- The URL handed out by the `n`-th call of `URL.createObjectURL`. -/
  createObjectURL : Nat → Blob → String
  /-- Whether `window.open` returns a window. -/
  windowOpens : Bool

/-- An `<img>` element appended to the marketplace. -/
structure Img where
  id : String
  alt : String
  src : String
  deriving DecidableEq, Repr

/-- Effects of the controller on the browser, in program order. -/
inductive ClientEffect where
  | fetch (url : String)
  | createObjectURL (url : String)
  | windowOpen
  | documentOpen
  | documentWrite (html : String)
  | documentClose
  | setOnload (revokes : String)
  | revokeObjectURL (url : String)
  deriving DecidableEq, Repr

/-- The fields of a `savannah` instance together with the effects it has had. -/
structure Gallery where
  /-- The children of the marketplace element. -/
  marketplace : List Img
  current_folder_id : Option String
  view_mode : String
  effects : List ClientEffect
  deriving Repr

/-- A new controller: `view_mode = "thumbnails"`, no folder selected. -/
def Gallery.new : Gallery :=
  { marketplace := [], current_folder_id := none, view_mode := "thumbnails", effects := [] }

/-- The URLs fetched so far. -/
def fetched : List ClientEffect → List String
  | [] => []
  | .fetch url :: rest => url :: fetched rest
  | _ :: rest => fetched rest

/-- The object URLs created so far. -/
def objectUrls : List ClientEffect → List String
  | [] => []
  | .createObjectURL url :: rest => url :: objectUrls rest
  | _ :: rest => objectUrls rest

/-- One `await fetch(url)`. -/
def doFetch (br : Browser) (g : Gallery) (url : String) : HttpResponse × Gallery :=
  (br.fetch (fetched g.effects).length url, { g with effects := g.effects ++ [.fetch url] })

/-- One `URL.createObjectURL(blob)`. -/
def doCreateObjectURL (br : Browser) (g : Gallery) (blob : Blob) : String × Gallery :=
  let url := br.createObjectURL (objectUrls g.effects).length blob
  (url, { g with effects := g.effects ++ [.createObjectURL url] })

/-- The method `get_blob(id)`; an error is the message of the thrown `mutall_error`. -/
def get_blob (br : Browser) (g : Gallery) (id : String) : Except String Blob × Gallery :=
  let (response, g) := doFetch br g ("http://localhost:3000/file/" ++ id)
  if !response.ok then (.error ("There was an issue " ++ response.statusText), g)
  else (.ok response.blob, g)

/-- The loop of `switch_folder` in the `"thumbnails"` mode. -/
def render_thumbnails (g : Gallery) : List Thumb → Gallery
  | [] => g
  | thumb :: rest =>
    let img : Img := { id := thumb.id, alt := thumb.name.getD "", src := thumb.thumbnailUrl }
    render_thumbnails { g with marketplace := g.marketplace ++ [img] } rest

/-- The loop of `switch_folder` in the `"blob"` mode. -/
def render_blobs (br : Browser) (g : Gallery) : List Thumb → Except String Unit × Gallery
  | [] => (.ok (), g)
  | thumb :: rest =>
    match get_blob br g thumb.id with
    | (.error e, g) => (.error e, g)
    | (.ok blob, g) =>
      let (blob_url, g) := doCreateObjectURL br g blob
      let img : Img := { id := thumb.id, alt := thumb.name.getD "", src := blob_url }
      render_blobs br { g with marketplace := g.marketplace ++ [img] } rest

/-- The method `switch_folder(folder_id)`. -/
def switch_folder (br : Browser) (g : Gallery) (folder_id : String) :
    Except String Unit × Gallery :=
  let g := { g with current_folder_id := some folder_id }
  let g := { g with marketplace := [] }
  let (response, g) := doFetch br g ("http://localhost:3000/thumbnails/" ++ folder_id)
  if !response.ok then (.error ("Failed to fetch thumbnails: " ++ response.statusText), g)
  else
    match response.json with
    | none => (.error "SyntaxError", g)
    | some thumbnails =>
      if g.view_mode = "thumbnails" then (.ok (), render_thumbnails g thumbnails)
      else if g.view_mode = "blob" then render_blobs br g thumbnails
      else (.ok (), g)

/-- The method `switch_view(mode)`. -/
def switch_view (br : Browser) (g : Gallery) (mode : String) : Except String Unit × Gallery :=
  let g := { g with view_mode := mode }
  if !truthy g.current_folder_id then (.error "No folder selected.", g)
  else switch_folder br g (g.current_folder_id.getD "")

/-- The method `magnify_window(image_blob, transcription)`. -/
def magnify_window (br : Browser) (g : Gallery) (image_blob : Blob) (transcription : String) :
    Except String Unit × Gallery :=
  let (blob_url, g) := doCreateObjectURL br g image_blob
  let g := { g with effects := g.effects ++ [.windowOpen] }
  if !br.windowOpens then (.error "Failed to open blob viewer window.", g)
  else
    let (response, g) := doFetch br g "blob.html"
    if !response.ok then
      (.error ("failekd to fetch blob.html template. status: " ++ response.statusText), g)
    else
      let blob_html := response.text
      let final_html :=
        replace (replace blob_html "image_url" blob_url) "transcription_placeholder" transcription
      (.ok (), { g with effects := g.effects ++
        [.documentOpen, .documentWrite final_html, .documentClose, .setOnload blob_url] })

/-- The method `transcribe(fileId)`: the field `transcription` of the parsed body. -/
def transcribe (br : Browser) (g : Gallery) (fileId : String) :
    Except String (Option String) × Gallery :=
  let (response, g) := doFetch br g ("http://localhost:3000/transcribe/" ++ fileId)
  if !response.ok then
    (.error ("Failed to transcribe image: " ++ response.statusText), g)
  else
    match response.jsonTranscription with
    | none => (.error "SyntaxError", g)
    | some transcription => (.ok transcription, g)

/-- The handler `img.ondblclick` that both loops of `switch_folder` install on an image;
`id` is the id of the entry, which is also the id of the element.  The call of
`magnify_window` is not awaited: the handler ends normally whatever becomes of it.  An
undefined transcription reaches `replace` as the text `undefined`. -/
def ondblclick (br : Browser) (g : Gallery) (id : String) : Except String Unit × Gallery :=
  match get_blob br g id with
  | (.error e, g) => (.error e, g)
  | (.ok image_blob, g) =>
    match transcribe br g id with
    | (.error e, g) => (.error e, g)
    | (.ok transcription, g) =>
      (.ok (), (magnify_window br g image_blob (transcription.getD "undefined")).2)

/-- The URLs that the `onload` handlers set so far will revoke, one per popup. -/
def onloads : List ClientEffect → List String
  | [] => []
  | .setOnload url :: rest => url :: onloads rest
  | _ :: rest => onloads rest

/-- The object URLs revoked so far. -/
def revoked : List ClientEffect → List String
  | [] => []
  | .revokeObjectURL url :: rest => url :: revoked rest
  | _ :: rest => revoked rest

/-- The load event of the `n`-th popup that has an `onload` handler: the handler runs
`URL.revokeObjectURL(blob_url)`. -/
def windowLoad (g : Gallery) (n : Nat) : Gallery :=
  match (onloads g.effects).get? n with
  | some blob_url => { g with effects := g.effects ++ [.revokeObjectURL blob_url] }
  | none => g

/-- The documents written into popups. -/
def documentsWritten : List ClientEffect → List String
  | [] => []
  | .documentWrite html :: rest => html :: documentsWritten rest
  | _ :: rest => documentsWritten rest

/-! ## Concrete environments and streams -/

/-- An inference environment whose provider answers with a fixed text. -/
def envOk : GeminiEnv :=
  { promptFile := .ok "Transcribe the text in this image.",
    generateContent := fun _ _ _ => .ok "hello" }

/-- An inference environment whose provider fails. -/
def envFail : GeminiEnv :=
  { promptFile := .ok "Transcribe the text in this image.",
    generateContent := fun _ _ _ => .error "503 Service Unavailable" }

/-- Three chunks whose concatenation is the bytes of `Man`. -/
def chunksMan : List Chunk := [[byteOf 77], [byteOf 97], [byteOf 110]]


/-! ## Concrete providers and files for the thumbnails route -/

/-- The file `a` of the scenario: an image with a thumbnail link. -/
def fileA : DriveFile :=
  { id := "a", name := "a.png", mimeType := "image/png", thumbnailLink := some "https://t/a" }

/-- The file `b` of the scenario: a PDF, for which no thumbnail link is given. -/
def fileB : DriveFile :=
  { id := "b", name := "b.pdf", mimeType := "application/pdf", thumbnailLink := none }

/-- A PDF for which the provider gives a thumbnail link. -/
def filePdf : DriveFile :=
  { id := "p", name := "p.pdf", mimeType := "application/pdf",
    thumbnailLink := some "https://t/p" }

/-- An image for which the provider gives no thumbnail link. -/
def fileC : DriveFile :=
  { id := "c", name := "c.gif", mimeType := "image/gif", thumbnailLink := none }

/-- An image whose thumbnail link is the empty string. -/
def fileD : DriveFile :=
  { id := "d", name := "d.jpg", mimeType := "image/jpeg", thumbnailLink := some "" }

/-- A second image with a thumbnail link. -/
def fileE : DriveFile :=
  { id := "e", name := "e.png", mimeType := "image/png", thumbnailLink := some "https://t/e" }

/-! ## Concrete browsers for the gallery controller -/

/-- The listing of a folder with two images, as the client parses it. -/
def twoThumbs : List Thumb :=
  [{ id := "a", name := some "a.png", thumbnailUrl := "https://t/a" },
   { id := "b", name := some "b.png", thumbnailUrl := "https://t/b" }]

/-- A browser whose third fetch (the blob of the second image) is answered 500, and
whose other fetches succeed. -/
def brSecondBlobFails : Browser :=
  { fetch := fun n _ =>
      { ok := n != 2, statusText := if n = 2 then "Internal Server Error" else "OK",
        json := some twoThumbs, blob := [], text := "" },
    createObjectURL := fun n _ => if n = 0 then "blob:0" else "blob:1",
    windowOpens := true }

/-- A browser whose every fetch is answered 500. -/
def brAllFail : Browser :=
  { fetch := fun _ _ =>
      { ok := false, statusText := "Internal Server Error", json := none, blob := [], text := "" },
    createObjectURL := fun _ _ => "blob:0",
    windowOpens := true }

/-- A new controller switched to the `"blob"` mode. -/
def galleryBlob : Gallery := { Gallery.new with view_mode := "blob" }

/-- Number of positions of `s` at which `pat` occurs. -/
def occurrences (pat : List Char) : List Char → Nat
  | [] => if pat = [] then 1 else 0
  | c :: s => (if pat.isPrefixOf (c :: s) then 1 else 0) + occurrences pat s

/-- A template in which each of the two tokens occurs once. -/
def blobTemplate : String := "<img src=\"image_url\"><p>transcription_placeholder</p>"

/-- A browser that serves the template and opens the popup. -/
def brTemplate : Browser :=
  { fetch := fun _ _ =>
      { ok := true, statusText := "OK", json := none, blob := [], text := blobTemplate },
    createObjectURL := fun _ _ => "blob:0",
    windowOpens := true }

/-- An inference environment whose prompt file cannot be read. -/
def envNoPrompt : GeminiEnv :=
  { promptFile := .error "ENOENT",
    generateContent := fun _ _ _ => .ok "hello" }

/-- A browser whose fetches all succeed: it serves a blob, the transcription `hello`
and the template, and opens the popup. -/
def brAllOk : Browser :=
  { fetch := fun _ _ =>
      { ok := true, statusText := "OK", json := none, blob := [byteOf 77], text := blobTemplate,
        jsonTranscription := some (some "hello") },
    createObjectURL := fun _ _ => "blob:0",
    windowOpens := true }

/-! # Theorems -/

/-! ## Lemmas on traces -/

theorem inferenceCalls_append (xs ys : List Effect) :
    inferenceCalls (xs ++ ys) = inferenceCalls xs ++ inferenceCalls ys := by
  induction xs with
  | nil => rfl
  | cons x xs ih => cases x <;> simp [inferenceCalls, ih]

theorem responses_append (xs ys : List Effect) :
    responses (xs ++ ys) = responses xs ++ responses ys := by
  induction xs with
  | nil => rfl
  | cons x xs ih => cases x <;> simp [responses, ih]

theorem providerCalls_append (xs ys : List Effect) :
    providerCalls (xs ++ ys) = providerCalls xs ++ providerCalls ys := by
  induction xs with
  | nil => rfl
  | cons x xs ih => cases x <;> simp [providerCalls, ih]

theorem subscriptions_append (xs ys : List Effect) :
    subscriptions (xs ++ ys) = subscriptions xs ++ subscriptions ys := by
  induction xs with
  | nil => rfl
  | cons x xs ih => cases x <;> simp [subscriptions, ih]

/-- The inference client makes no HTTP response and does not call itself. -/
theorem transcribeImage_effects (env : GeminiEnv) (d m : String) :
    inferenceCalls (transcribeImage env d m).2 = [] ∧
    responses (transcribeImage env d m).2 = [] ∧
    subscriptions (transcribeImage env d m).2 = [] ∧
    (providerCalls (transcribeImage env d m).2).length ≤ 1 := by
  unfold transcribeImage
  cases env.promptFile <;> simp [inferenceCalls, responses, subscriptions, providerCalls]

/-! ## Lemmas on base64 -/

theorem b64Index_b64Char_fin : ∀ n : Fin 64, b64Index (b64Char n.val) = some n.val := by decide

theorem b64Char_ne_pad_fin : ∀ n : Fin 64, b64Char n.val ≠ '=' := by decide

theorem b64Index_b64Char (n : Nat) (h : n < 64) : b64Index (b64Char n) = some n :=
  b64Index_b64Char_fin ⟨n, h⟩

theorem b64Char_ne_pad (n : Nat) (h : n < 64) : b64Char n ≠ '=' :=
  b64Char_ne_pad_fin ⟨n, h⟩

theorem byteOf_val (a : Byte) (n : Nat) (h : n = a.val) : byteOf n = a := by
  subst h
  apply Fin.ext
  simp [byteOf, Nat.mod_eq_of_lt a.isLt]

/-- Decoding the base64 of a byte sequence gives the sequence back. -/
theorem fromBase64_toBase64 : ∀ bs : List Byte, fromBase64 (toBase64 bs) = some bs
  | [] => rfl
  | [a] => by
    have ha := a.isLt
    have h0 : a.val / 4 < 64 := by omega
    have h1 : a.val % 4 * 16 < 64 := by omega
    simp only [toBase64, fromBase64, b64Index_b64Char _ h0, b64Index_b64Char _ h1]
    simp
    apply byteOf_val; omega
  | [a, b] => by
    have ha := a.isLt
    have hb := b.isLt
    have h0 : a.val / 4 < 64 := by omega
    have h1 : a.val % 4 * 16 + b.val / 16 < 64 := by omega
    have h2 : b.val % 16 * 4 < 64 := by omega
    simp only [toBase64, fromBase64, b64Index_b64Char _ h0, b64Index_b64Char _ h1,
      b64Index_b64Char _ h2, if_neg (b64Char_ne_pad _ h2)]
    simp
    constructor <;> (apply byteOf_val; omega)
  | a :: b :: c :: rest => by
    have ha := a.isLt
    have hb := b.isLt
    have hc := c.isLt
    have h0 : a.val / 4 < 64 := by omega
    have h1 : a.val % 4 * 16 + b.val / 16 < 64 := by omega
    have h2 : b.val % 16 * 4 + c.val / 64 < 64 := by omega
    have h3 : c.val % 64 < 64 := by omega
    simp only [toBase64, fromBase64, b64Index_b64Char _ h0, b64Index_b64Char _ h1,
      b64Index_b64Char _ h2, b64Index_b64Char _ h3, if_neg (b64Char_ne_pad _ h2),
      if_neg (b64Char_ne_pad _ h3), fromBase64_toBase64 rest]
    simp
    refine ⟨?_, ?_, ?_⟩ <;> (apply byteOf_val; omega)

/-! ## Lemmas on the stream listeners -/

/-- One event on a route without listeners: nothing, or the exit of the process. -/
theorem onEvent_not_listening (env : GeminiEnv) (s : TranscribeState) (event : StreamEvent)
    (h : s.listening = false) :
    onEvent env s event = s ∨
      ∃ e, onEvent env s event =
        { s with trace := s.trace ++ [.uncaughtException e], exited := true } := by
  unfold onEvent
  by_cases hx : s.exited = true
  · simp [hx]
  · cases event with
    | data chunk => simp [hx, h]
    | end_ => simp [hx, h]
    | error driveError =>
      by_cases hs : s.stream = true
      · exact Or.inr ⟨driveError, by simp [hx, h, hs]⟩
      · simp [hx, h, hs]

/-- A route that opened no stream ignores every stream event. -/
theorem foldl_onEvent_no_stream (env : GeminiEnv) (events : List StreamEvent)
    (s : TranscribeState) (h : s.listening = false) (hs : s.stream = false) :
    events.foldl (onEvent env) s = s := by
  induction events with
  | nil => rfl
  | cons ev rest ih =>
    have hstep : onEvent env s ev = s := by
      unfold onEvent
      cases ev <;> simp [h, hs]
    simp [List.foldl, hstep, ih]

/-- A route that attached no listener stays so whatever the stream does: it answers
nothing more, subscribes to nothing, keeps no chunk and calls no inference. -/
theorem foldl_onEvent_not_listening (env : GeminiEnv) (events : List StreamEvent) :
    ∀ s : TranscribeState, s.listening = false →
      (events.foldl (onEvent env) s).listening = false ∧
      (events.foldl (onEvent env) s).chunks = s.chunks ∧
      responses (events.foldl (onEvent env) s).trace = responses s.trace ∧
      subscriptions (events.foldl (onEvent env) s).trace = subscriptions s.trace ∧
      inferenceCalls (events.foldl (onEvent env) s).trace = inferenceCalls s.trace ∧
      providerCalls (events.foldl (onEvent env) s).trace = providerCalls s.trace := by
  induction events with
  | nil => intro s h; exact ⟨h, rfl, rfl, rfl, rfl, rfl⟩
  | cons ev rest ih =>
    intro s h
    simp only [List.foldl]
    rcases onEvent_not_listening env s ev h with hstep | ⟨e, hstep⟩
    · rw [hstep]
      exact ih s h
    · rw [hstep]
      obtain ⟨h1, h2, h3, h4, h5, h6⟩ :=
        ih { s with trace := s.trace ++ [.uncaughtException e], exited := true } h
      refine ⟨h1, h2, ?_, ?_, ?_, ?_⟩
      · rw [h3]; simp [responses_append, responses]
      · rw [h4]; simp [subscriptions_append, subscriptions]
      · rw [h5]; simp [inferenceCalls_append, inferenceCalls]
      · rw [h6]; simp [providerCalls_append, providerCalls]

/-- After the exit of the process no event has any effect. -/
theorem foldl_onEvent_exited (env : GeminiEnv) (events : List StreamEvent)
    (s : TranscribeState) (h : s.exited = true) :
    events.foldl (onEvent env) s = s := by
  induction events with
  | nil => rfl
  | cons ev rest ih =>
    have hstep : onEvent env s ev = s := by
      unfold onEvent
      simp [h]
    simp [List.foldl, hstep, ih]

/-- Data events append their chunks, in order, and do nothing else. -/
theorem foldl_onEvent_data (env : GeminiEnv) (chunks : List Chunk) (s : TranscribeState)
    (h : s.listening = true) (hx : s.exited = false) :
    (chunks.map StreamEvent.data).foldl (onEvent env) s =
      { s with chunks := s.chunks ++ chunks } := by
  induction chunks generalizing s with
  | nil => simp
  | cons c rest ih =>
    simp only [List.map, List.foldl]
    have hstep : onEvent env s (.data c) = { s with chunks := s.chunks ++ [c] } := by
      simp [onEvent, h, hx]
    rw [hstep, ih _ (by simpa using h) (by simpa using hx)]
    simp

/-- The state in which an image route waits for its stream. -/
theorem transcribeStart_image (fileId m : String) (hm : startsWith m "image/" = true) :
    transcribeStart fileId (.ok ()) (.ok (some m)) =
      { listening := true, mimeType := m, chunks := [], stream := true, exited := false,
        trace := [.driveGetMedia fileId, .driveGetMetadata fileId,
          .subscribe "data", .subscribe "end", .subscribe "error"] } := by
  simp [transcribeStart, hm]

/-- Every way the route body can go, when the stream raises nothing in the meantime,
either answers once and does not listen, or listens and has not answered. -/
theorem transcribeStart_cases (fileId : String) (media : Except String Unit)
    (metadata : Except String (Option String)) :
    let s := transcribeStart fileId media metadata
    inferenceCalls s.trace = [] ∧ providerCalls s.trace = [] ∧ s.exited = false ∧
    ((s.listening = false ∧ (responses s.trace).length = 1 ∧ subscriptions s.trace = []) ∨
      (s.listening = true ∧ responses s.trace = [])) := by
  unfold transcribeStart
  rcases media with e | ⟨⟨⟩⟩
  · simp [inferenceCalls, providerCalls, responses, subscriptions]
  · rcases metadata with e | (_ | m)
    · simp [inferenceCalls, providerCalls, responses, subscriptions]
    · simp [inferenceCalls, providerCalls, responses, subscriptions]
    · by_cases hm : startsWith m "image/" = true
      · simp [hm, inferenceCalls, providerCalls, responses, subscriptions]
      · simp [hm, inferenceCalls, providerCalls, responses, subscriptions]

/-- The trace after the chunks and the end of the stream, for a listening route. -/
theorem run_end (env : GeminiEnv) (s : TranscribeState) (chunks : List Chunk)
    (h : s.listening = true) (hx : s.exited = false) :
    ((chunks.map StreamEvent.data ++ [StreamEvent.end_]).foldl (onEvent env) s).trace =
      s.trace ++ [.transcribeImage (toBase64String (bufferConcat (s.chunks ++ chunks))) s.mimeType]
        ++ (transcribeImage env (toBase64String (bufferConcat (s.chunks ++ chunks))) s.mimeType).2
        ++ (match (transcribeImage env
              (toBase64String (bufferConcat (s.chunks ++ chunks))) s.mimeType).1 with
            | .ok t => [.respond 200 (.transcription t)]
            | .error e =>
              [.log e, .respond 500 (.error "Failed to transcribe image with Gemini.")]) := by
  rw [List.foldl_append, foldl_onEvent_data env chunks s h hx]
  simp only [List.foldl, onEvent, h, hx, if_true]
  generalize transcribeImage env _ _ = r
  rcases r with ⟨_ | _, eff⟩ <;> simp

/-- The trace after the chunks and a stream error, for a listening route. -/
theorem run_error (env : GeminiEnv) (s : TranscribeState) (chunks : List Chunk)
    (driveError : String) (h : s.listening = true) (hx : s.exited = false) :
    ((chunks.map StreamEvent.data ++ [StreamEvent.error driveError]).foldl (onEvent env) s).trace =
      s.trace ++
        [.log driveError, .respond 500 (.error "Failed to retrieve file from Google Drive.")] := by
  rw [List.foldl_append, foldl_onEvent_data env chunks s h hx]
  simp [List.foldl, onEvent, h, hx]

/-- Without an error in the window, the request is the route. -/
theorem transcribeRequest_none (env : GeminiEnv) (fileId : String)
    (media : Except String Unit) (metadata : Except String (Option String))
    (events : List StreamEvent) :
    transcribeRequest env fileId media none metadata events =
      transcribeRoute env fileId media metadata events := by
  unfold transcribeRequest transcribeRoute transcribeStartWith
  cases media <;> rfl

/-- An error in the window, on an opened stream, ends the request without a response. -/
theorem transcribeRequest_early (env : GeminiEnv) (fileId driveError : String)
    (metadata : Except String (Option String)) (events : List StreamEvent) :
    transcribeRequest env fileId (.ok ()) (some driveError) metadata events =
      { listening := false, mimeType := "", chunks := [], stream := true, exited := true,
        trace := [.driveGetMedia fileId, .driveGetMetadata fileId,
          .uncaughtException driveError] } := by
  unfold transcribeRequest transcribeStartWith
  exact foldl_onEvent_exited env events _ rfl

/-! ## The transcription route -/

/-- C1: for an image MIME type `m` and chunks `b1..bn` followed by end-of-stream, the
route calls `transcribeImage` exactly once, with the base64 of `b1 ++ ... ++ bn` and
with `m`; decoding that payload gives back exactly the concatenated bytes. -/
theorem transcribe_invokes_inference_once_with_full_payload
    (env : GeminiEnv) (fileId m : String) (chunks : List Chunk)
    (hm : startsWith m "image/" = true) :
    inferenceCalls (transcribeRoute env fileId (.ok ()) (.ok (some m))
        (chunks.map StreamEvent.data ++ [StreamEvent.end_])).trace
      = [(String.mk (toBase64 chunks.flatten), m)] ∧
    fromBase64 (String.mk (toBase64 chunks.flatten)).toList = some chunks.flatten := by
  refine ⟨?_, fromBase64_toBase64 _⟩
  unfold transcribeRoute
  rw [transcribeStart_image fileId m hm, run_end env _ chunks rfl rfl]
  simp only [inferenceCalls_append, (transcribeImage_effects env _ _).1]
  have hlast : ∀ r : Except String String,
      inferenceCalls (match r with
        | .ok t => [Effect.respond 200 (.transcription t)]
        | .error e =>
          [.log e, .respond 500 (.error "Failed to transcribe image with Gemini.")]) = [] := by
    intro r; cases r <;> rfl
  rw [hlast]
  simp [inferenceCalls, toBase64String, bufferConcat]

/-- Witness of C1: the chunks `M`, `a`, `n` of a PNG give the payload `TWFu`. -/
theorem transcribe_invokes_inference_once_with_full_payload_witness :
    startsWith "image/png" "image/" = true ∧
    inferenceCalls (transcribeRoute envOk "a" (.ok ()) (.ok (some "image/png"))
        (chunksMan.map StreamEvent.data ++ [StreamEvent.end_])).trace
      = [("TWFu", "image/png")] ∧
    fromBase64 "TWFu".toList = some [byteOf 77, byteOf 97, byteOf 110] :=
  ⟨by decide,
    transcribe_invokes_inference_once_with_full_payload envOk "a" "image/png" chunksMan
      (by decide)⟩

/-- C2, as stated, fails: for a file that is not an image the route has answered 400
and attached no listener when the stream signals its error; no 500 is sent. -/
theorem transcribe_stream_error_non_image_is_400 :
    startsWith "application/pdf" "image/" = false ∧
    responses (transcribeRequest envOk "b" (.ok ()) none (.ok (some "application/pdf"))
        [StreamEvent.error "socket hang up"]).trace
      = [(400, .error "File is not an image.")] := by
  decide

/-- C2, amended: when the stream delivers any chunks and then signals an error, with no
end-of-stream before it, `transcribeImage` is never called (nor the provider), whatever
the two requests returned and whenever the error is raised.  For an image file whose
stream signals the error after the route has subscribed, the route answers once, with
status 500; for a file that is not an image the route has answered 400 and has subscribed
to nothing. -/
theorem transcribe_stream_error_after_subscription
    (env : GeminiEnv) (fileId : String) (chunks : List Chunk) (driveError : String) :
    (∀ (media : Except String Unit) (early : Option String)
        (metadata : Except String (Option String)),
      inferenceCalls (transcribeRequest env fileId media early metadata
          (chunks.map StreamEvent.data ++ [StreamEvent.error driveError])).trace = [] ∧
      providerCalls (transcribeRequest env fileId media early metadata
          (chunks.map StreamEvent.data ++ [StreamEvent.error driveError])).trace = []) ∧
    (∀ m : String, startsWith m "image/" = true →
      responses (transcribeRequest env fileId (.ok ()) none (.ok (some m))
          (chunks.map StreamEvent.data ++ [StreamEvent.error driveError])).trace
        = [(500, .error "Failed to retrieve file from Google Drive.")]) ∧
    (∀ m : String, startsWith m "image/" = false →
      responses (transcribeRequest env fileId (.ok ()) none (.ok (some m))
          (chunks.map StreamEvent.data ++ [StreamEvent.error driveError])).trace
        = [(400, .error "File is not an image.")] ∧
      subscriptions (transcribeRequest env fileId (.ok ()) none (.ok (some m))
          (chunks.map StreamEvent.data ++ [StreamEvent.error driveError])).trace = []) := by
  refine ⟨?_, ?_, ?_⟩
  · intro media early metadata
    have hroute : inferenceCalls (transcribeRoute env fileId media metadata
          (chunks.map StreamEvent.data ++ [StreamEvent.error driveError])).trace = [] ∧
        providerCalls (transcribeRoute env fileId media metadata
          (chunks.map StreamEvent.data ++ [StreamEvent.error driveError])).trace = [] := by
      unfold transcribeRoute
      obtain ⟨hi, hp, hx, hcase⟩ := transcribeStart_cases fileId media metadata
      rcases hcase with ⟨hl, -, -⟩ | ⟨hl, -⟩
      · obtain ⟨-, -, -, -, h5, h6⟩ := foldl_onEvent_not_listening env
          (chunks.map StreamEvent.data ++ [StreamEvent.error driveError]) _ hl
        rw [h5, h6]
        exact ⟨hi, hp⟩
      · rw [run_error env _ chunks driveError hl hx]
        simp only [inferenceCalls_append, providerCalls_append, hi, hp]
        simp [inferenceCalls, providerCalls]
    cases early with
    | none => rw [transcribeRequest_none]; exact hroute
    | some e =>
      rcases media with e0 | ⟨⟨⟩⟩
      · have : transcribeRequest env fileId (.error e0) (some e) metadata
            (chunks.map StreamEvent.data ++ [StreamEvent.error driveError]) =
            transcribeRoute env fileId (.error e0) metadata
              (chunks.map StreamEvent.data ++ [StreamEvent.error driveError]) := rfl
        rw [this]; exact hroute
      · rw [transcribeRequest_early]
        simp [inferenceCalls, providerCalls]
  · intro m hm
    rw [transcribeRequest_none]
    unfold transcribeRoute
    rw [transcribeStart_image fileId m hm, run_error env _ chunks driveError rfl rfl]
    simp [responses]
  · intro m hm
    rw [transcribeRequest_none]
    unfold transcribeRoute
    obtain ⟨-, -, h3, h4, -, -⟩ := foldl_onEvent_not_listening env
      (chunks.map StreamEvent.data ++ [StreamEvent.error driveError])
      (transcribeStart fileId (.ok ()) (.ok (some m))) (by simp [transcribeStart, hm])
    rw [h3, h4]
    simp [transcribeStart, hm, responses, subscriptions]

/-- Witness of the amended C2: two chunks, then a stream error, for a PNG and for a
PDF. -/
theorem transcribe_stream_error_after_subscription_witness :
    startsWith "image/png" "image/" = true ∧
    responses (transcribeRequest envOk "a" (.ok ()) none (.ok (some "image/png"))
        ([[byteOf 77], [byteOf 97]].map StreamEvent.data ++
          [StreamEvent.error "socket hang up"])).trace
      = [(500, .error "Failed to retrieve file from Google Drive.")] ∧
    startsWith "application/pdf" "image/" = false ∧
    responses (transcribeRequest envOk "a" (.ok ()) none (.ok (some "application/pdf"))
        ([[byteOf 77], [byteOf 97]].map StreamEvent.data ++
          [StreamEvent.error "socket hang up"])).trace
      = [(400, .error "File is not an image.")] :=
  ⟨by decide,
    (transcribe_stream_error_after_subscription envOk "a" [[byteOf 77], [byteOf 97]]
      "socket hang up").2.1 "image/png" (by decide),
    by decide,
    ((transcribe_stream_error_after_subscription envOk "a" [[byteOf 77], [byteOf 97]]
      "socket hang up").2.2 "application/pdf" (by decide)).1⟩

/-- When the stream raises nothing while the route awaits the metadata, the route
produces exactly one HTTP response, whatever the outcome of the two provider requests,
the MIME type, the chunks, the terminal signal and the inference outcome. -/
theorem transcribeRoute_one_response
    (env : GeminiEnv) (fileId : String) (media : Except String Unit)
    (metadata : Except String (Option String)) (chunks : List Chunk) (driveError : String) :
    (responses (transcribeRoute env fileId media metadata
        (chunks.map StreamEvent.data ++ [StreamEvent.end_])).trace).length = 1 ∧
    (responses (transcribeRoute env fileId media metadata
        (chunks.map StreamEvent.data ++ [StreamEvent.error driveError])).trace).length = 1 := by
  unfold transcribeRoute
  obtain ⟨-, -, hx, hcase⟩ := transcribeStart_cases fileId media metadata
  rcases hcase with ⟨hl, hr, -⟩ | ⟨hl, hr⟩
  · obtain ⟨-, -, h3, -⟩ := foldl_onEvent_not_listening env
      (chunks.map StreamEvent.data ++ [StreamEvent.end_]) _ hl
    obtain ⟨-, -, h3', -⟩ := foldl_onEvent_not_listening env
      (chunks.map StreamEvent.data ++ [StreamEvent.error driveError]) _ hl
    rw [h3, h3']
    exact ⟨hr, hr⟩
  · rw [run_end env _ chunks hl hx, run_error env _ chunks driveError hl hx]
    simp only [responses_append, hr, (transcribeImage_effects env _ _).2.1]
    constructor
    · generalize (transcribeImage env _ _).1 = r
      cases r <;> simp [responses]
    · simp [responses]

/-- C3 fails on the code: a request for an image whose content stream raises an error
while the route awaits the metadata gets no response at all.  The stream was opened by
the first request and has no `error` listener yet; the error is raised outside the
`try`, the process exits, and whatever the stream would have delivered is lost. -/
theorem transcribe_early_stream_error_gives_no_response :
    startsWith "image/png" "image/" = true ∧
    (transcribeRequest envOk "a" (.ok ()) (some "socket hang up") (.ok (some "image/png"))
        []).trace
      = [.driveGetMedia "a", .driveGetMetadata "a", .uncaughtException "socket hang up"] ∧
    responses (transcribeRequest envOk "a" (.ok ()) (some "socket hang up")
        (.ok (some "image/png")) []).trace = [] ∧
    (transcribeRequest envOk "a" (.ok ()) (some "socket hang up") (.ok (some "image/png"))
        []).exited = true ∧
    responses (transcribeRequest envOk "a" (.ok ()) (some "socket hang up")
        (.ok (some "image/png"))
        (chunksMan.map StreamEvent.data ++ [StreamEvent.end_])).trace = [] := by
  refine ⟨by decide, by decide, by decide, by decide, by decide⟩

/-- C4, as stated, fails: a file that is not an image and whose content request fails
(the route asks for the content before the metadata) is answered 500, not 400. -/
theorem transcribe_non_image_content_failure_is_500 :
    startsWith "application/vnd.google-apps.document" "image/" = false ∧
    responses (transcribeRoute envOk "doc" (.error "fileNotDownloadable")
        (.ok (some "application/vnd.google-apps.document")) []).trace
      = [(500, .error "An unexpected error occurred.")] := by
  decide

/-- C4, amended: for a file whose MIME type does not start with `image/` and whose
content request succeeds, the route answers 400 once, subscribes to no stream event
(whatever the stream does, it is not consumed) and never calls the inference client;
when the content request fails, too, there is no subscription and no inference call. -/
theorem transcribe_non_image_rejected
    (env : GeminiEnv) (fileId m : String) (events : List StreamEvent)
    (hm : startsWith m "image/" = false) :
    responses (transcribeRoute env fileId (.ok ()) (.ok (some m)) events).trace
      = [(400, .error "File is not an image.")] ∧
    subscriptions (transcribeRoute env fileId (.ok ()) (.ok (some m)) events).trace = [] ∧
    inferenceCalls (transcribeRoute env fileId (.ok ()) (.ok (some m)) events).trace = [] ∧
    (transcribeRoute env fileId (.ok ()) (.ok (some m)) events).chunks = [] ∧
    ∀ e : String,
      subscriptions (transcribeRoute env fileId (.error e) (.ok (some m)) events).trace = [] ∧
      inferenceCalls (transcribeRoute env fileId (.error e) (.ok (some m)) events).trace = [] := by
  have hstart : transcribeStart fileId (.ok ()) (.ok (some m)) =
      { listening := false, mimeType := m, chunks := [], stream := true, exited := false,
        trace := [.driveGetMedia fileId, .driveGetMetadata fileId,
          .respond 400 (.error "File is not an image.")] } := by
    simp [transcribeStart, hm]
  have h2 : ∀ e : String, transcribeRoute env fileId (.error e) (.ok (some m)) events =
      { listening := false, mimeType := "", chunks := [], stream := false, exited := false,
        trace := [.driveGetMedia fileId, .log e,
          .respond 500 (.error "An unexpected error occurred.")] } := by
    intro e
    unfold transcribeRoute
    rw [foldl_onEvent_no_stream env _ _ (by simp [transcribeStart]) (by simp [transcribeStart])]
    simp [transcribeStart]
  obtain ⟨-, hc, hr, hs, hi, -⟩ := foldl_onEvent_not_listening env events
    (transcribeStart fileId (.ok ()) (.ok (some m))) (by rw [hstart])
  unfold transcribeRoute
  rw [hr, hs, hi, hc, hstart]
  refine ⟨by simp [responses], by simp [subscriptions], by simp [inferenceCalls], rfl, ?_⟩
  intro e
  have h2e := h2 e
  unfold transcribeRoute at h2e
  rw [h2e]
  simp [subscriptions, inferenceCalls]

/-- Witness of the amended C4: a PDF whose stream would deliver a chunk and end. -/
theorem transcribe_non_image_rejected_witness :
    startsWith "application/pdf" "image/" = false ∧
    responses (transcribeRoute envOk "b" (.ok ()) (.ok (some "application/pdf"))
        [StreamEvent.data [byteOf 37], StreamEvent.end_]).trace
      = [(400, .error "File is not an image.")] :=
  ⟨by decide,
    (transcribe_non_image_rejected envOk "b" "application/pdf"
      [StreamEvent.data [byteOf 37], StreamEvent.end_] (by decide)).1⟩

/-- C7: for an image file whose stream completes, if the inference client returns the
text `t` the route answers 200 with `{transcription: t}` and nothing else; if the
inference client fails the route answers 500 once, the inference client has been called
exactly once and the provider at most once. -/
theorem transcribe_maps_inference_outcome
    (env : GeminiEnv) (fileId m : String) (chunks : List Chunk)
    (hm : startsWith m "image/" = true) :
    match (transcribeImage env (String.mk (toBase64 chunks.flatten)) m).1 with
    | .ok t =>
      responses (transcribeRoute env fileId (.ok ()) (.ok (some m))
          (chunks.map StreamEvent.data ++ [StreamEvent.end_])).trace
        = [(200, .transcription t)]
    | .error _ =>
      responses (transcribeRoute env fileId (.ok ()) (.ok (some m))
          (chunks.map StreamEvent.data ++ [StreamEvent.end_])).trace
        = [(500, .error "Failed to transcribe image with Gemini.")] ∧
      inferenceCalls (transcribeRoute env fileId (.ok ()) (.ok (some m))
          (chunks.map StreamEvent.data ++ [StreamEvent.end_])).trace
        = [(String.mk (toBase64 chunks.flatten), m)] ∧
      (providerCalls (transcribeRoute env fileId (.ok ()) (.ok (some m))
          (chunks.map StreamEvent.data ++ [StreamEvent.end_])).trace).length ≤ 1 := by
  have htr : (transcribeRoute env fileId (.ok ()) (.ok (some m))
      (chunks.map StreamEvent.data ++ [StreamEvent.end_])).trace =
      [.driveGetMedia fileId, .driveGetMetadata fileId,
          .subscribe "data", .subscribe "end", .subscribe "error"]
        ++ [.transcribeImage (String.mk (toBase64 chunks.flatten)) m]
        ++ (transcribeImage env (String.mk (toBase64 chunks.flatten)) m).2
        ++ (match (transcribeImage env (String.mk (toBase64 chunks.flatten)) m).1 with
            | .ok t => [.respond 200 (.transcription t)]
            | .error e =>
              [.log e, .respond 500 (.error "Failed to transcribe image with Gemini.")]) := by
    unfold transcribeRoute
    rw [transcribeStart_image fileId m hm, run_end env _ chunks rfl rfl]
    simp [toBase64String, bufferConcat]
  rw [htr]
  obtain ⟨hi, hr, -, hp⟩ := transcribeImage_effects env (String.mk (toBase64 chunks.flatten)) m
  generalize transcribeImage env (String.mk (toBase64 chunks.flatten)) m = r at hi hr hp
  rcases r with ⟨_ | t, eff⟩
  · simp only [responses_append, inferenceCalls_append, providerCalls_append]
    simp only at hi hr hp
    simp [responses, inferenceCalls, providerCalls, hi, hr, hp]
  · simp only [responses_append]
    simp only at hr
    simp [responses, hr]

/-- Witness of C7: one provider that answers `hello`, one that fails. -/
theorem transcribe_maps_inference_outcome_witness :
    startsWith "image/png" "image/" = true ∧
    responses (transcribeRoute envOk "a" (.ok ()) (.ok (some "image/png"))
        (chunksMan.map StreamEvent.data ++ [StreamEvent.end_])).trace
      = [(200, .transcription "hello")] ∧
    (responses (transcribeRoute envFail "a" (.ok ()) (.ok (some "image/png"))
        (chunksMan.map StreamEvent.data ++ [StreamEvent.end_])).trace
      = [(500, .error "Failed to transcribe image with Gemini.")] ∧
      inferenceCalls (transcribeRoute envFail "a" (.ok ()) (.ok (some "image/png"))
        (chunksMan.map StreamEvent.data ++ [StreamEvent.end_])).trace
      = [("TWFu", "image/png")] ∧
      (providerCalls (transcribeRoute envFail "a" (.ok ()) (.ok (some "image/png"))
        (chunksMan.map StreamEvent.data ++ [StreamEvent.end_])).trace).length ≤ 1) :=
  ⟨by decide,
    transcribe_maps_inference_outcome envOk "a" "image/png" chunksMan (by decide),
    transcribe_maps_inference_outcome envFail "a" "image/png" chunksMan (by decide)⟩

/-! ## The thumbnails route -/

theorem mem_imageThumbnails (files : List DriveFile) (e : ThumbnailEntry) :
    e ∈ imageThumbnails files ↔
      ∃ f ∈ files, truthy f.thumbnailLink = true ∧ e = toThumbnailEntry f := by
  unfold imageThumbnails
  simp only [List.mem_map, List.mem_filter]
  constructor
  · rintro ⟨f, ⟨hf, ht⟩, rfl⟩
    exact ⟨f, hf, ht, rfl⟩
  · rintro ⟨f, hf, ht, rfl⟩
    exact ⟨f, ⟨hf, ht⟩, rfl⟩

/-- The list computed by the route is the one the specification describes. -/
theorem imageThumbnails_eq_keepThumbnailed (files : List DriveFile) :
    imageThumbnails files = keepThumbnailed files := by
  induction files with
  | nil => rfl
  | cons f rest ih =>
    unfold imageThumbnails at ih ⊢
    rcases f with ⟨id, name, mime, _ | link⟩
    · have ht : truthy (none : Option String) = false := rfl
      rw [List.filter_cons]
      simp only [ht, keepThumbnailed]
      simpa using ih
    · by_cases hl : link = ""
      · have ht : truthy (some link) = false := by simp [truthy, hl]
        rw [List.filter_cons]
        simp only [ht, keepThumbnailed, hl]
        simpa using ih
      · have ht : truthy (some link) = true := by simp [truthy, hl]
        rw [List.filter_cons]
        simp only [ht, keepThumbnailed, hl]
        simpa [toThumbnailEntry] using ih

/-- C5, as stated, fails: when the listing returned by the provider holds a PDF that
has a thumbnail link, the route returns an entry for it: the route reads no MIME type. -/
theorem thumbnails_returns_listed_pdf :
    startsWith filePdf.mimeType "image/" = false ∧
    responses (thumbnailsRoute (fun _ => .ok [fileA, filePdf]) "F1")
      = [(200, .thumbnails
          [{ id := "a", name := "a.png", thumbnailUrl := some "https://t/a" },
           { id := "p", name := "p.pdf", thumbnailUrl := some "https://t/p" }])] := by
  decide

/-- C5, amended: the route asks the provider for the files of the folder whose
`mimeType contains 'image/'` and reads no MIME type itself; for every listing the
provider returns, every entry of the body is the projection of a file of that listing
that has a thumbnail link.  For the listing of `a` (image/png, with a thumbnail link)
and `b` (application/pdf, without one) the body is exactly the entry of `a`. -/
theorem thumbnails_entries_are_listed_files_with_link
    (drive : String → Except String (List DriveFile)) (folderId : String)
    (files : List DriveFile)
    (hq : drive ("'" ++ folderId ++ "' in parents and mimeType contains 'image/'") = .ok files) :
    thumbnailsRoute drive folderId
      = [.driveList ("'" ++ folderId ++ "' in parents and mimeType contains 'image/'"),
          .respond 200 (.thumbnails (imageThumbnails files))] ∧
    (∀ e ∈ imageThumbnails files, ∃ f ∈ files, truthy f.thumbnailLink = true ∧
      e = { id := f.id, name := f.name, thumbnailUrl := f.thumbnailLink }) ∧
    responses (thumbnailsRoute (fun _ => .ok [fileA, fileB]) "F1")
      = [(200, .thumbnails [{ id := "a", name := "a.png", thumbnailUrl := some "https://t/a" }])] := by
  refine ⟨?_, ?_, by decide⟩
  · unfold thumbnailsRoute thumbnailsQuery
    rw [hq]
  · intro e he
    obtain ⟨f, hf, ht, rfl⟩ := (mem_imageThumbnails files e).1 he
    exact ⟨f, hf, ht, rfl⟩

/-- Witness of the amended C5: the provider lists the image `a`, the PDF `b` without a
thumbnail link and the image `c` without one; only `a` is returned. -/
theorem thumbnails_entries_are_listed_files_with_link_witness :
    thumbnailsRoute (fun _ => .ok [fileA, fileB, fileC]) "F1"
      = [.driveList "'F1' in parents and mimeType contains 'image/'",
          .respond 200
            (.thumbnails [{ id := "a", name := "a.png", thumbnailUrl := some "https://t/a" }])] :=
  (thumbnails_entries_are_listed_files_with_link (fun _ => .ok [fileA, fileB, fileC]) "F1"
    [fileA, fileB, fileC] rfl).1

/-- C6: for every list `L` the provider returns, the body of the response is `L` with
exactly the files that have a non-empty thumbnail link kept, in the order of `L`, each
mapped to `{id, name, thumbnailUrl}`: every entry has a thumbnail link, no file with one
is dropped, and the order of the listing is preserved. -/
theorem thumbnails_body_keeps_thumbnailed_in_order
    (drive : String → Except String (List DriveFile)) (folderId : String) (L : List DriveFile)
    (hq : drive (thumbnailsQuery folderId) = .ok L) :
    responses (thumbnailsRoute drive folderId) = [(200, .thumbnails (keepThumbnailed L))] ∧
    (∀ e ∈ keepThumbnailed L, truthy e.thumbnailUrl = true) ∧
    (∀ f ∈ L, truthy f.thumbnailLink = true →
      { id := f.id, name := f.name, thumbnailUrl := f.thumbnailLink } ∈ keepThumbnailed L) ∧
    (∀ e ∈ keepThumbnailed L, ∃ f ∈ L, truthy f.thumbnailLink = true ∧
      e = { id := f.id, name := f.name, thumbnailUrl := f.thumbnailLink }) ∧
    List.Sublist (keepThumbnailed L)
      (L.map (fun f => { id := f.id, name := f.name, thumbnailUrl := f.thumbnailLink })) := by
  rw [← imageThumbnails_eq_keepThumbnailed]
  refine ⟨?_, ?_, ?_, ?_, ?_⟩
  · unfold thumbnailsRoute
    rw [hq]
    simp [responses]
  · intro e he
    obtain ⟨f, -, ht, rfl⟩ := (mem_imageThumbnails L e).1 he
    exact ht
  · intro f hf ht
    exact (mem_imageThumbnails L _).2 ⟨f, hf, ht, rfl⟩
  · intro e he
    exact (mem_imageThumbnails L e).1 he
  · unfold imageThumbnails
    exact (List.filter_sublist L).map toThumbnailEntry

/-- Witness of C6: of the listing `[e, c, d, a]` the files `e` and `a` are kept, in that
order; `c` has no thumbnail link and `d` an empty one. -/
theorem thumbnails_body_keeps_thumbnailed_in_order_witness :
    responses (thumbnailsRoute (fun _ => .ok [fileE, fileC, fileD, fileA]) "F1")
      = [(200, .thumbnails
          [{ id := "e", name := "e.png", thumbnailUrl := some "https://t/e" },
           { id := "a", name := "a.png", thumbnailUrl := some "https://t/a" }])] :=
  (thumbnails_body_keeps_thumbnailed_in_order (fun _ => .ok [fileE, fileC, fileD, fileA]) "F1"
    [fileE, fileC, fileD, fileA] rfl).1

/-! ## The gallery controller -/

theorem fetched_append (xs ys : List ClientEffect) :
    fetched (xs ++ ys) = fetched xs ++ fetched ys := by
  induction xs with
  | nil => rfl
  | cons x xs ih => cases x <;> simp [fetched, ih]

/-- The loop of the thumbnails mode has no effect on the browser. -/
theorem render_thumbnails_effects (thumbs : List Thumb) :
    ∀ g : Gallery, (render_thumbnails g thumbs).effects = g.effects := by
  induction thumbs with
  | nil => intro g; rfl
  | cons t rest ih => intro g; simp [render_thumbnails, ih]

/-- C8: with no folder selected, `switch_view(mode)` fails with the error
"No folder selected." for every mode; it only records the mode: it fetches nothing and
renders nothing. -/
theorem switch_view_without_folder_fails
    (br : Browser) (g : Gallery) (mode : String) (h : g.current_folder_id = none) :
    (switch_view br g mode).1 = .error "No folder selected." ∧
    (switch_view br g mode).2.effects = g.effects ∧
    (switch_view br g mode).2.marketplace = g.marketplace ∧
    (switch_view br g mode).2.current_folder_id = none ∧
    (switch_view br g mode).2.view_mode = mode := by
  simp [switch_view, h, truthy]

/-- Witness of C8: a new controller asked for the blob mode. -/
theorem switch_view_without_folder_fails_witness :
    Gallery.new.current_folder_id = none ∧
    (switch_view brSecondBlobFails Gallery.new "blob").1 = .error "No folder selected." ∧
    (switch_view brSecondBlobFails Gallery.new "blob").2.effects = [] ∧
    (switch_view brSecondBlobFails Gallery.new "blob").2.marketplace = [] ∧
    (switch_view brSecondBlobFails Gallery.new "blob").2.current_folder_id = none ∧
    (switch_view brSecondBlobFails Gallery.new "blob").2.view_mode = "blob" :=
  ⟨rfl, switch_view_without_folder_fails brSecondBlobFails Gallery.new "blob" rfl⟩

/-- The loop of the blob mode stops at the first entry whose blob fetch is not OK, and
the images of the entries before it are in the marketplace by then. -/
theorem render_blobs_fails_at (br : Browser) :
    ∀ (pre : List Thumb) (g : Gallery) (t : Thumb) (post : List Thumb),
      (∀ (i : Nat) (h : i < pre.length),
        (br.fetch ((fetched g.effects).length + i)
          ("http://localhost:3000/file/" ++ (pre.get ⟨i, h⟩).id)).ok = true) →
      (br.fetch ((fetched g.effects).length + pre.length)
        ("http://localhost:3000/file/" ++ t.id)).ok = false →
      (render_blobs br g (pre ++ t :: post)).1 =
        .error ("There was an issue " ++
          (br.fetch ((fetched g.effects).length + pre.length)
            ("http://localhost:3000/file/" ++ t.id)).statusText) ∧
      (render_blobs br g (pre ++ t :: post)).2.marketplace.map Img.id =
        g.marketplace.map Img.id ++ pre.map Thumb.id := by
  intro pre
  induction pre with
  | nil =>
    intro g t post _ hbad
    simp only [List.length_nil, Nat.add_zero] at hbad ⊢
    simp [render_blobs, get_blob, doFetch, hbad]
  | cons p pre ih =>
    intro g t post hok hbad
    have h0 := hok 0 (by simp)
    simp only [Nat.add_zero, List.get_eq_getElem, List.getElem_cons_zero] at h0
    let g1 : Gallery :=
      { marketplace := g.marketplace ++
          [{ id := p.id, alt := p.name.getD "",
             src := br.createObjectURL (objectUrls (g.effects ++
               [.fetch ("http://localhost:3000/file/" ++ p.id)])).length
               (br.fetch (fetched g.effects).length ("http://localhost:3000/file/" ++ p.id)).blob }],
        current_folder_id := g.current_folder_id,
        view_mode := g.view_mode,
        effects := g.effects ++ [.fetch ("http://localhost:3000/file/" ++ p.id)] ++
          [.createObjectURL (br.createObjectURL (objectUrls (g.effects ++
               [.fetch ("http://localhost:3000/file/" ++ p.id)])).length
               (br.fetch (fetched g.effects).length ("http://localhost:3000/file/" ++ p.id)).blob)] }
    have hstep : render_blobs br g ((p :: pre) ++ t :: post) =
        render_blobs br g1 (pre ++ t :: post) := by
      simp [render_blobs, get_blob, doFetch, doCreateObjectURL, h0, g1]
    have hlen : (fetched g1.effects).length = (fetched g.effects).length + 1 := by
      simp [g1, fetched_append, fetched]
    have hok1 : ∀ (i : Nat) (h : i < pre.length),
        (br.fetch ((fetched g1.effects).length + i)
          ("http://localhost:3000/file/" ++ (pre.get ⟨i, h⟩).id)).ok = true := by
      intro i h
      have := hok (i + 1) (by simp; omega)
      rw [hlen]
      have e : (fetched g.effects).length + 1 + i = (fetched g.effects).length + (i + 1) := by
        omega
      rw [e]
      simpa using this
    have e2 : (fetched g1.effects).length + pre.length =
        (fetched g.effects).length + (p :: pre).length := by
      rw [hlen]; simp; omega
    have hbad1 : (br.fetch ((fetched g1.effects).length + pre.length)
        ("http://localhost:3000/file/" ++ t.id)).ok = false := by
      rw [e2]; exact hbad
    obtain ⟨hr, hm⟩ := ih g1 t post hok1 hbad1
    rw [hstep, hr, hm, e2]
    simp [g1]

/-- C9, as stated, fails: in the blob mode, when the blob fetch of the second image is
answered 500, `switch_folder` throws with the first image already in the marketplace. -/
theorem switch_folder_blob_failure_leaves_partial_rendering :
    (switch_folder brSecondBlobFails galleryBlob "F1").1 =
      .error "There was an issue Internal Server Error" ∧
    (switch_folder brSecondBlobFails galleryBlob "F1").2.marketplace =
      [{ id := "a", alt := "a.png", src := "blob:0" }] ∧
    fetched (switch_folder brSecondBlobFails galleryBlob "F1").2.effects =
      ["http://localhost:3000/thumbnails/F1", "http://localhost:3000/file/a",
       "http://localhost:3000/file/b"] := by
  refine ⟨rfl, rfl, rfl⟩

/-- C9, amended: a non-OK response makes `switch_folder` throw at once and render
nothing after it.  When it is the thumbnails listing, the marketplace is empty.  When it
is the blob fetch of an entry in the blob mode, every earlier blob fetch having
succeeded, the marketplace holds the images of exactly the entries before that one.  In
the thumbnails mode the listing is the only fetch. -/
theorem switch_folder_aborts_at_first_failed_response
    (br : Browser) (g : Gallery) (folder_id : String) :
    ((br.fetch (fetched g.effects).length
        ("http://localhost:3000/thumbnails/" ++ folder_id)).ok = false →
      (switch_folder br g folder_id).1 =
        .error ("Failed to fetch thumbnails: " ++
          (br.fetch (fetched g.effects).length
            ("http://localhost:3000/thumbnails/" ++ folder_id)).statusText) ∧
      (switch_folder br g folder_id).2.marketplace = []) ∧
    (∀ (pre : List Thumb) (t : Thumb) (post : List Thumb),
      (br.fetch (fetched g.effects).length
        ("http://localhost:3000/thumbnails/" ++ folder_id)).ok = true →
      (br.fetch (fetched g.effects).length
        ("http://localhost:3000/thumbnails/" ++ folder_id)).json = some (pre ++ t :: post) →
      g.view_mode = "blob" →
      (∀ (i : Nat) (h : i < pre.length),
        (br.fetch ((fetched g.effects).length + 1 + i)
          ("http://localhost:3000/file/" ++ (pre.get ⟨i, h⟩).id)).ok = true) →
      (br.fetch ((fetched g.effects).length + 1 + pre.length)
        ("http://localhost:3000/file/" ++ t.id)).ok = false →
      (switch_folder br g folder_id).1 =
        .error ("There was an issue " ++
          (br.fetch ((fetched g.effects).length + 1 + pre.length)
            ("http://localhost:3000/file/" ++ t.id)).statusText) ∧
      (switch_folder br g folder_id).2.marketplace.map Img.id = pre.map Thumb.id) ∧
    (∀ thumbnails : List Thumb,
      (br.fetch (fetched g.effects).length
        ("http://localhost:3000/thumbnails/" ++ folder_id)).ok = true →
      (br.fetch (fetched g.effects).length
        ("http://localhost:3000/thumbnails/" ++ folder_id)).json = some thumbnails →
      g.view_mode = "thumbnails" →
      (switch_folder br g folder_id).1 = .ok () ∧
      fetched (switch_folder br g folder_id).2.effects =
        fetched g.effects ++ ["http://localhost:3000/thumbnails/" ++ folder_id]) := by
  refine ⟨?_, ?_, ?_⟩
  · intro hbad
    simp [switch_folder, doFetch, hbad]
  rotate_left
  · intro thumbnails hok hjson hmode
    simp [switch_folder, doFetch, hok, hjson, hmode, render_thumbnails_effects,
      fetched_append, fetched]
  · intro pre t post hok hjson hmode hpre hbad
    let g0 : Gallery :=
      { marketplace := [], current_folder_id := some folder_id, view_mode := g.view_mode,
        effects := g.effects ++ [.fetch ("http://localhost:3000/thumbnails/" ++ folder_id)] }
    have hsw : switch_folder br g folder_id = render_blobs br g0 (pre ++ t :: post) := by
      simp [switch_folder, doFetch, hok, hjson, hmode, g0]
    have hlen : (fetched g0.effects).length = (fetched g.effects).length + 1 := by
      simp [g0, fetched_append, fetched]
    have h1 : ∀ (i : Nat) (h : i < pre.length),
        (br.fetch ((fetched g0.effects).length + i)
          ("http://localhost:3000/file/" ++ (pre.get ⟨i, h⟩).id)).ok = true := by
      intro i h
      rw [hlen]
      exact hpre i h
    have h2 : (br.fetch ((fetched g0.effects).length + pre.length)
        ("http://localhost:3000/file/" ++ t.id)).ok = false := by
      rw [hlen]
      exact hbad
    obtain ⟨hr, hm⟩ := render_blobs_fails_at br pre g0 t post h1 h2
    rw [hsw, hr, hm, hlen]
    simp [g0]

/-- Witness of the amended C9: a failing listing, and a failing second blob fetch. -/
theorem switch_folder_aborts_at_first_failed_response_witness :
    ((switch_folder brAllFail Gallery.new "F1").1 =
        .error "Failed to fetch thumbnails: Internal Server Error" ∧
      (switch_folder brAllFail Gallery.new "F1").2.marketplace = []) ∧
    ((switch_folder brSecondBlobFails galleryBlob "F1").1 =
        .error "There was an issue Internal Server Error" ∧
      (switch_folder brSecondBlobFails galleryBlob "F1").2.marketplace.map Img.id = ["a"]) :=
  ⟨(switch_folder_aborts_at_first_failed_response brAllFail Gallery.new "F1").1 rfl,
    (switch_folder_aborts_at_first_failed_response brSecondBlobFails galleryBlob "F1").2.1
      [{ id := "a", name := some "a.png", thumbnailUrl := "https://t/a" }]
      { id := "b", name := some "b.png", thumbnailUrl := "https://t/b" } [] rfl rfl rfl
      (by
        intro i h
        have hi : i = 0 := by simpa using h
        subst hi
        rfl)
      rfl⟩

/-! ## The popup document -/

/-- A replacement text without `$` is inserted as it is. -/
theorem getSubstitution_of_no_dollar (matched str : List Char) (position : Nat) :
    ∀ replacement : List Char, '$' ∉ replacement →
      getSubstitution matched str position replacement = replacement
  | [], _ => rfl
  | [c], _ => rfl
  | c :: d :: rest, h => by
    have hc : c ≠ '$' := fun e => h (by simp [e])
    have htail : '$' ∉ d :: rest := fun hm => h (List.mem_cons_of_mem _ hm)
    rw [getSubstitution, if_neg hc, getSubstitution_of_no_dollar matched str position _ htail]

/-- Without `$` in the replacement text, `replace` is the literal substitution. -/
theorem replaceChars_of_no_dollar (str pat replacement : List Char) (h : '$' ∉ replacement) :
    replaceChars str pat replacement = substituteLiteral str pat replacement := by
  unfold replaceChars substituteLiteral
  cases indexOf str pat with
  | none => rfl
  | some position => simp only [getSubstitution_of_no_dollar _ _ _ _ h]

theorem documentsWritten_append (xs ys : List ClientEffect) :
    documentsWritten (xs ++ ys) = documentsWritten xs ++ documentsWritten ys := by
  induction xs with
  | nil => rfl
  | cons x xs ih => cases x <;> simp [documentsWritten, ih]

/-- C10 fails on the code: with a template holding each token once and the
transcription `Price range: $$`, the document written into the popup holds
`Price range: $`, while the literal substitution holds the transcription unchanged;
with `US$'000` the text after the token is copied into the document. -/
theorem magnify_window_expands_dollar_patterns :
    occurrences "image_url".toList blobTemplate.toList = 1 ∧
    occurrences "transcription_placeholder".toList blobTemplate.toList = 1 ∧
    documentsWritten (magnify_window brTemplate Gallery.new [] "Price range: $$").2.effects
      = ["<img src=\"blob:0\"><p>Price range: $</p>"] ∧
    String.mk (substituteLiteral
        (substituteLiteral blobTemplate.toList "image_url".toList "blob:0".toList)
        "transcription_placeholder".toList "Price range: $$".toList)
      = "<img src=\"blob:0\"><p>Price range: $$</p>" ∧
    documentsWritten (magnify_window brTemplate Gallery.new [] "US$'000").2.effects
      = ["<img src=\"blob:0\"><p>US</p>000</p>"] := by
  refine ⟨by decide, by decide, by decide, by decide, by decide⟩

/-- When neither the blob URL nor the transcription holds a `$`, the document written
into the popup is the template with the first `image_url` replaced by the URL and then
the first `transcription_placeholder` replaced by the transcription, literally. -/
theorem magnify_window_literal_without_dollar
    (br : Browser) (g : Gallery) (image_blob : Blob) (transcription : String)
    (hwin : br.windowOpens = true)
    (hok : (br.fetch (fetched g.effects).length "blob.html").ok = true)
    (hu : '$' ∉ (br.createObjectURL (objectUrls g.effects).length image_blob).toList)
    (ht : '$' ∉ transcription.toList) :
    documentsWritten (magnify_window br g image_blob transcription).2.effects =
      documentsWritten g.effects ++
        [String.mk (substituteLiteral
          (substituteLiteral (br.fetch (fetched g.effects).length "blob.html").text.toList
            "image_url".toList
            (br.createObjectURL (objectUrls g.effects).length image_blob).toList)
          "transcription_placeholder".toList transcription.toList)] := by
  have hr : replace (replace (br.fetch (fetched g.effects).length "blob.html").text "image_url"
        (br.createObjectURL (objectUrls g.effects).length image_blob))
      "transcription_placeholder" transcription =
      String.mk (substituteLiteral
        (substituteLiteral (br.fetch (fetched g.effects).length "blob.html").text.toList
          "image_url".toList
          (br.createObjectURL (objectUrls g.effects).length image_blob).toList)
        "transcription_placeholder".toList transcription.toList) := by
    unfold replace
    rw [replaceChars_of_no_dollar _ _ _ hu, replaceChars_of_no_dollar _ _ _ ht]
    rfl
  have hf2 : fetched (g.effects ++
      [ClientEffect.createObjectURL
        (br.createObjectURL (objectUrls g.effects).length image_blob)] ++
      [ClientEffect.windowOpen]) = fetched g.effects := by
    simp [fetched_append, fetched]
  simp only [magnify_window, doCreateObjectURL, doFetch, hwin, hf2, hok, hr]
  simp [documentsWritten_append, documentsWritten]

/-! ## Failure responses of the gateway -/

/-- The trace of an image request whose stream completes. -/
theorem transcribeRoute_image_end (env : GeminiEnv) (fileId m : String) (chunks : List Chunk)
    (hm : startsWith m "image/" = true) :
    (transcribeRoute env fileId (.ok ()) (.ok (some m))
        (chunks.map StreamEvent.data ++ [StreamEvent.end_])).trace =
      [.driveGetMedia fileId, .driveGetMetadata fileId,
          .subscribe "data", .subscribe "end", .subscribe "error"]
        ++ [.transcribeImage (String.mk (toBase64 chunks.flatten)) m]
        ++ (transcribeImage env (String.mk (toBase64 chunks.flatten)) m).2
        ++ (match (transcribeImage env (String.mk (toBase64 chunks.flatten)) m).1 with
            | .ok t => [.respond 200 (.transcription t)]
            | .error e =>
              [.log e, .respond 500 (.error "Failed to transcribe image with Gemini.")]) := by
  unfold transcribeRoute
  rw [transcribeStart_image fileId m hm, run_end env _ chunks rfl rfl]
  simp [toBase64String, bufferConcat]

/-- The response of an image request whose inference fails. -/
theorem responses_of_inference_failure (env : GeminiEnv) (fileId m e : String)
    (chunks : List Chunk) (hm : startsWith m "image/" = true)
    (he : (transcribeImage env (String.mk (toBase64 chunks.flatten)) m).1 = .error e) :
    responses (transcribeRoute env fileId (.ok ()) (.ok (some m))
        (chunks.map StreamEvent.data ++ [StreamEvent.end_])).trace
      = [(500, .error "Failed to transcribe image with Gemini.")] := by
  rw [transcribeRoute_image_end env fileId m chunks hm, he]
  simp only [responses_append, (transcribeImage_effects env _ m).2.1]
  simp [responses]

/-- C11: on every route, two errors that drive it into the same failure branch get the
same status and the same JSON body, `{error: <the fixed message of the branch>}`: the
content of the error thrown by the provider never reaches the response.  The branches are
the catch of `/`, `/file`, `/thumbnail` and `/thumbnails`, and for `/transcribe` the
failure of the content request, of the metadata request, of the stream, and of the
inference. -/
theorem failure_response_independent_of_error (e1 e2 : String) :
    (∀ drive1 drive2 : String → Except String (List DriveFile),
      drive1 rootQuery = .error e1 → drive2 rootQuery = .error e2 →
      responses (rootRoute drive1) = [(500, .error "Failed to retrieve file list.")] ∧
      responses (rootRoute drive2) = responses (rootRoute drive1)) ∧
    (∀ fileId : String,
      responses (fileRoute (.error e1) fileId) = [(500, .error "Failed to retrieve file.")] ∧
      responses (fileRoute (.error e2) fileId) = responses (fileRoute (.error e1) fileId)) ∧
    (∀ fileId : String,
      responses (thumbnailRoute (.error e1) fileId)
        = [(500, .error "Failed to retrieve thumbnail.")] ∧
      responses (thumbnailRoute (.error e2) fileId)
        = responses (thumbnailRoute (.error e1) fileId)) ∧
    (∀ (drive1 drive2 : String → Except String (List DriveFile)) (folderId : String),
      drive1 (thumbnailsQuery folderId) = .error e1 →
      drive2 (thumbnailsQuery folderId) = .error e2 →
      responses (thumbnailsRoute drive1 folderId)
        = [(500, .error "Failed to retrieve image thumbnails.")] ∧
      responses (thumbnailsRoute drive2 folderId) = responses (thumbnailsRoute drive1 folderId)) ∧
    (∀ (env : GeminiEnv) (fileId : String) (metadata : Except String (Option String))
        (events : List StreamEvent),
      responses (transcribeRoute env fileId (.error e1) metadata events).trace
        = [(500, .error "An unexpected error occurred.")] ∧
      responses (transcribeRoute env fileId (.error e2) metadata events).trace
        = responses (transcribeRoute env fileId (.error e1) metadata events).trace) ∧
    (∀ (env : GeminiEnv) (fileId : String) (events : List StreamEvent),
      responses (transcribeRoute env fileId (.ok ()) (.error e1) events).trace
        = [(500, .error "An unexpected error occurred.")] ∧
      responses (transcribeRoute env fileId (.ok ()) (.error e2) events).trace
        = responses (transcribeRoute env fileId (.ok ()) (.error e1) events).trace) ∧
    (∀ (env : GeminiEnv) (fileId m : String) (chunks : List Chunk),
      startsWith m "image/" = true →
      responses (transcribeRoute env fileId (.ok ()) (.ok (some m))
          (chunks.map StreamEvent.data ++ [StreamEvent.error e1])).trace
        = [(500, .error "Failed to retrieve file from Google Drive.")] ∧
      responses (transcribeRoute env fileId (.ok ()) (.ok (some m))
          (chunks.map StreamEvent.data ++ [StreamEvent.error e2])).trace
        = responses (transcribeRoute env fileId (.ok ()) (.ok (some m))
          (chunks.map StreamEvent.data ++ [StreamEvent.error e1])).trace) ∧
    (∀ (env1 env2 : GeminiEnv) (fileId m : String) (chunks : List Chunk),
      startsWith m "image/" = true →
      (transcribeImage env1 (String.mk (toBase64 chunks.flatten)) m).1 = .error e1 →
      (transcribeImage env2 (String.mk (toBase64 chunks.flatten)) m).1 = .error e2 →
      responses (transcribeRoute env1 fileId (.ok ()) (.ok (some m))
          (chunks.map StreamEvent.data ++ [StreamEvent.end_])).trace
        = [(500, .error "Failed to transcribe image with Gemini.")] ∧
      responses (transcribeRoute env2 fileId (.ok ()) (.ok (some m))
          (chunks.map StreamEvent.data ++ [StreamEvent.end_])).trace
        = responses (transcribeRoute env1 fileId (.ok ()) (.ok (some m))
          (chunks.map StreamEvent.data ++ [StreamEvent.end_])).trace) := by
  refine ⟨?_, ?_, ?_, ?_, ?_, ?_, ?_, ?_⟩
  · intro drive1 drive2 h1 h2
    simp [rootRoute, h1, h2, responses]
  · intro fileId
    simp [fileRoute, responses]
  · intro fileId
    simp [thumbnailRoute, responses]
  · intro drive1 drive2 folderId h1 h2
    simp [thumbnailsRoute, h1, h2, responses]
  · intro env fileId metadata events
    unfold transcribeRoute
    rw [foldl_onEvent_no_stream env _ _ (by simp [transcribeStart]) (by simp [transcribeStart]),
      foldl_onEvent_no_stream env _ _ (by simp [transcribeStart]) (by simp [transcribeStart])]
    simp [transcribeStart, responses]
  · intro env fileId events
    unfold transcribeRoute
    obtain ⟨-, -, h1, -⟩ := foldl_onEvent_not_listening env events
      (transcribeStart fileId (.ok ()) (.error e1)) (by simp [transcribeStart])
    obtain ⟨-, -, h2, -⟩ := foldl_onEvent_not_listening env events
      (transcribeStart fileId (.ok ()) (.error e2)) (by simp [transcribeStart])
    rw [h1, h2]
    simp [transcribeStart, responses]
  · intro env fileId m chunks hm
    unfold transcribeRoute
    rw [transcribeStart_image fileId m hm, run_error env _ chunks e1 rfl rfl,
      run_error env _ chunks e2 rfl rfl]
    simp [responses]
  · intro env1 env2 fileId m chunks hm h1 h2
    rw [responses_of_inference_failure env1 fileId m e1 chunks hm h1,
      responses_of_inference_failure env2 fileId m e2 chunks hm h2]
    exact ⟨rfl, rfl⟩

/-- Witness of C11: a provider failing with two different errors on the listings, a
stream failing with them, and an inference failing once at the provider and once at the
prompt file. -/
theorem failure_response_independent_of_error_witness :
    (responses (rootRoute (fun _ => .error "503 Service Unavailable"))
        = [(500, .error "Failed to retrieve file list.")] ∧
      responses (rootRoute (fun _ => .error "ENOENT"))
        = responses (rootRoute (fun _ => .error "503 Service Unavailable"))) ∧
    (responses (thumbnailsRoute (fun _ => .error "503 Service Unavailable") "F1")
        = [(500, .error "Failed to retrieve image thumbnails.")] ∧
      responses (thumbnailsRoute (fun _ => .error "ENOENT") "F1")
        = responses (thumbnailsRoute (fun _ => .error "503 Service Unavailable") "F1")) ∧
    (responses (transcribeRoute envOk "a" (.ok ()) (.ok (some "image/png"))
          (chunksMan.map StreamEvent.data ++
            [StreamEvent.error "503 Service Unavailable"])).trace
        = [(500, .error "Failed to retrieve file from Google Drive.")] ∧
      responses (transcribeRoute envOk "a" (.ok ()) (.ok (some "image/png"))
          (chunksMan.map StreamEvent.data ++ [StreamEvent.error "ENOENT"])).trace
        = responses (transcribeRoute envOk "a" (.ok ()) (.ok (some "image/png"))
          (chunksMan.map StreamEvent.data ++
            [StreamEvent.error "503 Service Unavailable"])).trace) ∧
    (responses (transcribeRoute envFail "a" (.ok ()) (.ok (some "image/png"))
          (chunksMan.map StreamEvent.data ++ [StreamEvent.end_])).trace
        = [(500, .error "Failed to transcribe image with Gemini.")] ∧
      responses (transcribeRoute envNoPrompt "a" (.ok ()) (.ok (some "image/png"))
          (chunksMan.map StreamEvent.data ++ [StreamEvent.end_])).trace
        = responses (transcribeRoute envFail "a" (.ok ()) (.ok (some "image/png"))
          (chunksMan.map StreamEvent.data ++ [StreamEvent.end_])).trace) :=
  ⟨(failure_response_independent_of_error "503 Service Unavailable" "ENOENT").1
      (fun _ => .error "503 Service Unavailable") (fun _ => .error "ENOENT") rfl rfl,
    (failure_response_independent_of_error "503 Service Unavailable" "ENOENT").2.2.2.1
      (fun _ => .error "503 Service Unavailable") (fun _ => .error "ENOENT") "F1" rfl rfl,
    (failure_response_independent_of_error "503 Service Unavailable" "ENOENT").2.2.2.2.2.2.1
      envOk "a" "image/png" chunksMan (by decide),
    (failure_response_independent_of_error "503 Service Unavailable" "ENOENT").2.2.2.2.2.2.2
      envFail envNoPrompt "a" "image/png" chunksMan (by decide) rfl rfl⟩

/-! ## The double-click handler -/

theorem objectUrls_append (xs ys : List ClientEffect) :
    objectUrls (xs ++ ys) = objectUrls xs ++ objectUrls ys := by
  induction xs with
  | nil => rfl
  | cons x xs ih => cases x <;> simp [objectUrls, ih]

theorem revoked_append (xs ys : List ClientEffect) :
    revoked (xs ++ ys) = revoked xs ++ revoked ys := by
  induction xs with
  | nil => rfl
  | cons x xs ih => cases x <;> simp [revoked, ih]

theorem onloads_append (xs ys : List ClientEffect) :
    onloads (xs ++ ys) = onloads xs ++ onloads ys := by
  induction xs with
  | nil => rfl
  | cons x xs ih => cases x <;> simp [onloads, ih]

/-- What `magnify_window` adds to the effects: the object URL and the window first, then
the template fetch, then the document and the `onload` handler. -/
theorem magnify_window_effects (br : Browser) (g : Gallery) (image_blob : Blob)
    (transcription : String) :
    ∃ rest : List ClientEffect,
      (magnify_window br g image_blob transcription).2.effects =
        g.effects ++ [.createObjectURL
          (br.createObjectURL (objectUrls g.effects).length image_blob), .windowOpen] ++ rest ∧
      ClientEffect.windowOpen ∉ rest ∧ revoked rest = [] ∧
      (∀ url, ClientEffect.fetch url ∈ rest → url = "blob.html") := by
  have hf : fetched (g.effects ++
      [ClientEffect.createObjectURL
        (br.createObjectURL (objectUrls g.effects).length image_blob)] ++
      [ClientEffect.windowOpen]) = fetched g.effects := by
    simp [fetched_append, fetched]
  by_cases hw : br.windowOpens = true
  · by_cases hok : (br.fetch (fetched g.effects).length "blob.html").ok = true
    · refine ⟨[.fetch "blob.html", .documentOpen,
        .documentWrite (replace (replace
          (br.fetch (fetched g.effects).length "blob.html").text "image_url"
          (br.createObjectURL (objectUrls g.effects).length image_blob))
          "transcription_placeholder" transcription),
        .documentClose,
        .setOnload (br.createObjectURL (objectUrls g.effects).length image_blob)], ?_, ?_, ?_, ?_⟩
      · simp only [magnify_window, doCreateObjectURL, doFetch, hw, hf, hok]
        simp
      · simp
      · simp [revoked]
      · intro url h
        simpa using h
    · refine ⟨[.fetch "blob.html"], ?_, ?_, ?_, ?_⟩
      · simp only [magnify_window, doCreateObjectURL, doFetch, hw, hf, hok]
        simp
      · simp
      · simp [revoked]
      · intro url h
        simpa using h
  · refine ⟨[], ?_, ?_, ?_, ?_⟩
    · simp [magnify_window, doCreateObjectURL, hw]
    · simp
    · simp [revoked]
    · intro url h
      simp at h

/-- The handler when the blob fetch is not OK: it stops after that fetch. -/
theorem ondblclick_blob_failed (br : Browser) (g : Gallery) (id : String)
    (h : (br.fetch (fetched g.effects).length ("http://localhost:3000/file/" ++ id)).ok = false) :
    (ondblclick br g id).2.effects =
      g.effects ++ [.fetch ("http://localhost:3000/file/" ++ id)] := by
  simp [ondblclick, get_blob, doFetch, h]

/-- The handler when the transcription fetch fails: it stops after the two fetches. -/
theorem ondblclick_transcribe_failed (br : Browser) (g : Gallery) (id : String)
    (h1 : (br.fetch (fetched g.effects).length ("http://localhost:3000/file/" ++ id)).ok = true)
    (h2 : (br.fetch ((fetched g.effects).length + 1)
        ("http://localhost:3000/transcribe/" ++ id)).ok = false ∨
      (br.fetch ((fetched g.effects).length + 1)
        ("http://localhost:3000/transcribe/" ++ id)).jsonTranscription = none) :
    (ondblclick br g id).2.effects =
      g.effects ++ [.fetch ("http://localhost:3000/file/" ++ id),
        .fetch ("http://localhost:3000/transcribe/" ++ id)] := by
  by_cases hok : (br.fetch ((fetched g.effects).length + 1)
      ("http://localhost:3000/transcribe/" ++ id)).ok = true
  · have hj := h2.resolve_left (by simp [hok])
    simp [ondblclick, get_blob, transcribe, doFetch, h1, fetched_append, fetched, hok, hj]
  · simp [ondblclick, get_blob, transcribe, doFetch, h1, fetched_append, fetched, hok]

/-- The handler when both fetches succeed: `magnify_window` runs on their results. -/
theorem ondblclick_both_fetched (br : Browser) (g : Gallery) (id : String)
    (t : Option String)
    (h1 : (br.fetch (fetched g.effects).length ("http://localhost:3000/file/" ++ id)).ok = true)
    (h2 : (br.fetch ((fetched g.effects).length + 1)
        ("http://localhost:3000/transcribe/" ++ id)).ok = true)
    (h3 : (br.fetch ((fetched g.effects).length + 1)
        ("http://localhost:3000/transcribe/" ++ id)).jsonTranscription = some t) :
    (ondblclick br g id).2 =
      (magnify_window br
        { g with effects := g.effects ++ [.fetch ("http://localhost:3000/file/" ++ id)] ++
          [.fetch ("http://localhost:3000/transcribe/" ++ id)] }
        (br.fetch (fetched g.effects).length ("http://localhost:3000/file/" ++ id)).blob
        (t.getD "undefined")).2 := by
  simp [ondblclick, get_blob, transcribe, doFetch, h1, fetched_append, fetched, h2, h3]

/-- C12 fails on the code: on a double click with every fetch answered 200, the blob
fetch and the transcription fetch are awaited first and `window.open` runs only after
both have resolved, in the thumbnails mode and in the blob mode alike; the window is
first only with respect to the fetch of the template.  The revocation is as claimed: the
handler revokes nothing and the load event of the popup revokes the URL of the display. -/
theorem ondblclick_opens_window_after_both_fetches :
    (ondblclick brAllOk Gallery.new "a").2.effects =
      [.fetch "http://localhost:3000/file/a", .fetch "http://localhost:3000/transcribe/a",
        .createObjectURL "blob:0", .windowOpen, .fetch "blob.html", .documentOpen,
        .documentWrite "<img src=\"blob:0\"><p>hello</p>", .documentClose,
        .setOnload "blob:0"] ∧
    (ondblclick brAllOk galleryBlob "a").2.effects =
      (ondblclick brAllOk Gallery.new "a").2.effects ∧
    (ondblclick brAllOk Gallery.new "a").2.effects.indexOf
        (.fetch "http://localhost:3000/file/a") = 0 ∧
    (ondblclick brAllOk Gallery.new "a").2.effects.indexOf
        (.fetch "http://localhost:3000/transcribe/a") = 1 ∧
    (ondblclick brAllOk Gallery.new "a").2.effects.indexOf .windowOpen = 3 ∧
    revoked (ondblclick brAllOk Gallery.new "a").2.effects = [] ∧
    revoked (windowLoad (ondblclick brAllOk Gallery.new "a").2 0).effects = ["blob:0"] := by
  refine ⟨by decide, by decide, by decide, by decide, by decide, by decide, by decide⟩

/-- The trace of the handler in general: the blob fetch and the transcription fetch
precede `window.open`, which is followed by no fetch but that of the template; the
handler revokes no object URL; when every step succeeds the `onload` handler of the
popup is set to revoke the URL backing the display, and the load event of that popup
revokes exactly that URL. -/
theorem ondblclick_trace
    (br : Browser) (g : Gallery) (id : String) :
    revoked (ondblclick br g id).2.effects = revoked g.effects ∧
    (∃ tail : List ClientEffect,
      (ondblclick br g id).2.effects = g.effects ++ tail ∧
      (ClientEffect.windowOpen ∈ tail →
        ∃ (u : String) (rest : List ClientEffect),
          tail = [.fetch ("http://localhost:3000/file/" ++ id),
            .fetch ("http://localhost:3000/transcribe/" ++ id),
            .createObjectURL u, .windowOpen] ++ rest ∧
          ClientEffect.windowOpen ∉ rest ∧
          ∀ url, ClientEffect.fetch url ∈ rest → url = "blob.html")) ∧
    (∀ t : Option String,
      (br.fetch (fetched g.effects).length ("http://localhost:3000/file/" ++ id)).ok = true →
      (br.fetch ((fetched g.effects).length + 1)
        ("http://localhost:3000/transcribe/" ++ id)).ok = true →
      (br.fetch ((fetched g.effects).length + 1)
        ("http://localhost:3000/transcribe/" ++ id)).jsonTranscription = some t →
      br.windowOpens = true →
      (br.fetch ((fetched g.effects).length + 2) "blob.html").ok = true →
      (ondblclick br g id).2.effects =
        g.effects ++
          [.fetch ("http://localhost:3000/file/" ++ id),
            .fetch ("http://localhost:3000/transcribe/" ++ id),
            .createObjectURL (br.createObjectURL (objectUrls g.effects).length
              (br.fetch (fetched g.effects).length ("http://localhost:3000/file/" ++ id)).blob),
            .windowOpen, .fetch "blob.html", .documentOpen,
            .documentWrite (replace (replace
              (br.fetch ((fetched g.effects).length + 2) "blob.html").text "image_url"
              (br.createObjectURL (objectUrls g.effects).length
                (br.fetch (fetched g.effects).length
                  ("http://localhost:3000/file/" ++ id)).blob))
              "transcription_placeholder" (t.getD "undefined")),
            .documentClose,
            .setOnload (br.createObjectURL (objectUrls g.effects).length
              (br.fetch (fetched g.effects).length
                ("http://localhost:3000/file/" ++ id)).blob)] ∧
      revoked (windowLoad (ondblclick br g id).2 (onloads g.effects).length).effects =
        revoked g.effects ++
          [br.createObjectURL (objectUrls g.effects).length
            (br.fetch (fetched g.effects).length
              ("http://localhost:3000/file/" ++ id)).blob]) := by
  -- the shape of the trace, by cases on the two fetches
  have shape : ∃ tail : List ClientEffect,
      (ondblclick br g id).2.effects = g.effects ++ tail ∧ revoked tail = [] ∧
      (ClientEffect.windowOpen ∈ tail →
        ∃ (u : String) (rest : List ClientEffect),
          tail = [.fetch ("http://localhost:3000/file/" ++ id),
            .fetch ("http://localhost:3000/transcribe/" ++ id),
            .createObjectURL u, .windowOpen] ++ rest ∧
          ClientEffect.windowOpen ∉ rest ∧
          ∀ url, ClientEffect.fetch url ∈ rest → url = "blob.html") := by
    by_cases h1 : (br.fetch (fetched g.effects).length
        ("http://localhost:3000/file/" ++ id)).ok = true
    · by_cases h2 : (br.fetch ((fetched g.effects).length + 1)
          ("http://localhost:3000/transcribe/" ++ id)).ok = true
      · cases h3 : (br.fetch ((fetched g.effects).length + 1)
            ("http://localhost:3000/transcribe/" ++ id)).jsonTranscription with
        | none =>
          refine ⟨_, ondblclick_transcribe_failed br g id h1 (Or.inr h3), by simp [revoked], ?_⟩
          intro h
          simp at h
        | some t =>
          obtain ⟨rest, hm, hw, hr, hfetch⟩ := magnify_window_effects br
            { g with effects := g.effects ++ [.fetch ("http://localhost:3000/file/" ++ id)] ++
              [.fetch ("http://localhost:3000/transcribe/" ++ id)] }
            (br.fetch (fetched g.effects).length ("http://localhost:3000/file/" ++ id)).blob
            (t.getD "undefined")
          refine ⟨[.fetch ("http://localhost:3000/file/" ++ id),
              .fetch ("http://localhost:3000/transcribe/" ++ id),
              .createObjectURL (br.createObjectURL (objectUrls (g.effects ++
                [.fetch ("http://localhost:3000/file/" ++ id)] ++
                [.fetch ("http://localhost:3000/transcribe/" ++ id)])).length
                (br.fetch (fetched g.effects).length
                  ("http://localhost:3000/file/" ++ id)).blob),
              .windowOpen] ++ rest, ?_, ?_, ?_⟩
          · rw [ondblclick_both_fetched br g id t h1 h2 h3, hm]
            simp
          · simp [revoked_append, revoked, hr]
          · intro _
            exact ⟨_, rest, rfl, hw, hfetch⟩
      · refine ⟨_, ondblclick_transcribe_failed br g id h1 (Or.inl (by simpa using h2)),
          by simp [revoked], ?_⟩
        intro h
        simp at h
    · refine ⟨_, ondblclick_blob_failed br g id (by simpa using h1), by simp [revoked], ?_⟩
      intro h
      simp at h
  refine ⟨?_, ?_, ?_⟩
  · obtain ⟨tail, ht, hr, -⟩ := shape
    rw [ht, revoked_append, hr]
    simp
  · obtain ⟨tail, ht, -, hw⟩ := shape
    exact ⟨tail, ht, hw⟩
  · intro t h1 h2 h3 hwin htpl
    have heff : (ondblclick br g id).2.effects =
        g.effects ++
          [.fetch ("http://localhost:3000/file/" ++ id),
            .fetch ("http://localhost:3000/transcribe/" ++ id),
            .createObjectURL (br.createObjectURL (objectUrls g.effects).length
              (br.fetch (fetched g.effects).length ("http://localhost:3000/file/" ++ id)).blob),
            .windowOpen, .fetch "blob.html", .documentOpen,
            .documentWrite (replace (replace
              (br.fetch ((fetched g.effects).length + 2) "blob.html").text "image_url"
              (br.createObjectURL (objectUrls g.effects).length
                (br.fetch (fetched g.effects).length
                  ("http://localhost:3000/file/" ++ id)).blob))
              "transcription_placeholder" (t.getD "undefined")),
            .documentClose,
            .setOnload (br.createObjectURL (objectUrls g.effects).length
              (br.fetch (fetched g.effects).length
                ("http://localhost:3000/file/" ++ id)).blob)] := by
      rw [ondblclick_both_fetched br g id t h1 h2 h3]
      simp [magnify_window, doCreateObjectURL, doFetch, hwin, fetched_append, fetched,
        objectUrls_append, objectUrls, htpl]
    refine ⟨heff, ?_⟩
    unfold windowLoad
    rw [heff]
    simp [onloads_append, onloads, revoked_append, revoked]

end Savannah
